import Mathlib

/-!
# DRM shared functions of uterm (src/uterm_drm_shared.c)

A shallow embedding of the display-resource manager of `uterm_drm_shared.c`
and theorems about CRTC allocation, DPMS handling, display binding, hotplug
reconciliation and wake-up.

## Modelling conventions

* C `int` values are `Int`; `uint32_t` values are `Nat`, converted with
  `toInt32` where the source stores them in an `int`.
* Every call that leaves this translation unit for the kernel (libdrm) or for
  the allocator of `uterm_video.c` is answered by an oracle `Kernel`.  The
  oracle sees the whole history of earlier calls, so two calls with the same
  arguments may be answered differently: any sequence of answers is some
  oracle.  The history itself is kept in `World.calls` (newest first), which is
  how "issues no device call" is stated.
* Linked lists (`shl_dlist`) are `List`s in list order; `shl_dlist_link_tail`
  appends.
* Flag words are one Boolean per named bit.
-/

namespace Uterm

/-! ## Constants -/

/-- Linux errno value `EINVAL`. -/
def EINVAL : Int := 22
/-- Linux errno value `EFAULT`. -/
def EFAULT : Int := 14
/-- Linux errno value `ENODEV`. -/
def ENODEV : Int := 19
/-- Linux errno value `EACCES`. -/
def EACCES : Int := 13

/-- Modelled from the spec: `enum uterm_display_dpms` is declared in
`uterm_video.h`, outside this translation unit; the values follow the order of
the data model, ON, STANDBY, SUSPEND, OFF, UNKNOWN. -/
def UTERM_DPMS_ON : Int := 0
/-- Modelled from the spec: second enumerator of `enum uterm_display_dpms`. -/
def UTERM_DPMS_STANDBY : Int := 1
/-- Modelled from the spec: third enumerator of `enum uterm_display_dpms`. -/
def UTERM_DPMS_SUSPEND : Int := 2
/-- Modelled from the spec: fourth enumerator of `enum uterm_display_dpms`. -/
def UTERM_DPMS_OFF : Int := 3
/-- Modelled from the spec: fifth enumerator of `enum uterm_display_dpms`. -/
def UTERM_DPMS_UNKNOWN : Int := 4

/-- Raw DPMS property value `DRM_MODE_DPMS_ON` of the kernel interface. -/
def DRM_MODE_DPMS_ON : Nat := 0
/-- Raw DPMS property value `DRM_MODE_DPMS_STANDBY` of the kernel interface. -/
def DRM_MODE_DPMS_STANDBY : Nat := 1
/-- Raw DPMS property value `DRM_MODE_DPMS_SUSPEND` of the kernel interface. -/
def DRM_MODE_DPMS_SUSPEND : Nat := 2
/-- Raw DPMS property value `DRM_MODE_DPMS_OFF` of the kernel interface. -/
def DRM_MODE_DPMS_OFF : Nat := 3
/-- Connection status `DRM_MODE_CONNECTED` of the kernel interface. -/
def DRM_MODE_CONNECTED : Nat := 1

/-- Conversion of a `uint32_t` to `int` (two's complement wrap-around). -/
def toInt32 (n : Nat) : Int :=
  if n % 2 ^ 32 < 2 ^ 31 then ((n % 2 ^ 32 : Nat) : Int) else ((n % 2 ^ 32 : Nat) : Int) - 2 ^ 32

/-! ## Kernel data (the parts of the libdrm structures the code reads) -/

/-- The fields of `drmModeModeInfo` read by the mode accessors. -/
structure ModeInfo where
  name : String
  hdisplay : Nat
  vdisplay : Nat
  deriving DecidableEq, Repr

/-- The fields of `drmModeCrtc` used to restore a configuration. -/
structure Crtc where
  crtc_id : Nat
  buffer_id : Nat
  x : Nat
  y : Nat
  mode : ModeInfo
  deriving DecidableEq, Repr

/-- The structure `drmModeRes`: `count_crtcs` and `count_connectors` are the
lengths of the two arrays. -/
structure Res where
  crtcs : List Nat
  connectors : List Nat
  deriving DecidableEq, Repr

/-- The structure `drmModeEncoder`. -/
structure Encoder where
  possible_crtcs : Nat
  deriving DecidableEq, Repr

/-- The structure `drmModePropertyRes`. -/
structure Property where
  prop_id : Nat
  name : String
  deriving DecidableEq, Repr

/-- The structure `drmModeConnector`.  `props` pairs `props[i]` with
`prop_values[i]`; `count_props`, `count_encoders` and `count_modes` are the
lengths. -/
structure Connector where
  connector_id : Nat
  connection : Nat
  encoders : List Nat
  props : List (Nat × Nat)
  modes : List ModeInfo
  deriving DecidableEq, Repr

/-! ## The outside world -/

/-- Calls that leave the translation unit. -/
inductive Call where
  | getResources
  | getConnector (conn_id : Nat)
  | getEncoder (enc_id : Nat)
  | getProperty (prop_id : Nat)
  | connectorSetProperty (conn_id prop_id value : Nat)
  | getCrtc (crtc_id : Int)
  | setCrtc (saved : Crtc) (conn_id : Nat)
  | setMaster
  | dropMaster
  | display_new
  | mode_new
  | mode_bind
  | display_bind
  deriving DecidableEq, Repr

/-- The answers of the outside world.  The first argument of every field is
the history of calls made so far (newest first). -/
structure Kernel where
  getResources : List Call → Option Res
  getConnector : List Call → Nat → Option Connector
  getEncoder : List Call → Nat → Option Encoder
  getProperty : List Call → Nat → Option Property
  connectorSetProperty : List Call → Nat → Nat → Nat → Int
  getCrtc : List Call → Int → Option Crtc
  setMaster : List Call → Int
  display_new : List Call → Int
  mode_new : List Call → Int
  mode_bind : List Call → Int
  display_bind : List Call → Int

/-- The state outside the program: the history of calls and whether the
process holds DRM mastership. -/
structure World where
  calls : List Call
  master : Bool
  deriving DecidableEq, Repr

/-- Records a call in the history. -/
def World.log (w : World) (c : Call) : World := { w with calls := c :: w.calls }

/-- The call `drmModeGetResources(fd)`. -/
def drmModeGetResources (k : Kernel) (w : World) : Option Res × World :=
  (k.getResources w.calls, w.log Call.getResources)

/-- The call `drmModeGetConnector(fd, id)`; libdrm stores the requested id in
the returned structure. -/
def drmModeGetConnector (k : Kernel) (w : World) (id : Nat) : Option Connector × World :=
  ((k.getConnector w.calls id).map (fun c => { c with connector_id := id }),
    w.log (Call.getConnector id))

/-- The call `drmModeGetEncoder(fd, id)`. -/
def drmModeGetEncoder (k : Kernel) (w : World) (id : Nat) : Option Encoder × World :=
  (k.getEncoder w.calls id, w.log (Call.getEncoder id))

/-- The call `drmModeGetProperty(fd, id)`. -/
def drmModeGetProperty (k : Kernel) (w : World) (id : Nat) : Option Property × World :=
  (k.getProperty w.calls id, w.log (Call.getProperty id))

/-- The call `drmModeConnectorSetProperty(fd, conn_id, prop_id, value)`. -/
def drmModeConnectorSetProperty (k : Kernel) (w : World) (conn_id prop_id value : Nat) :
    Int × World :=
  (k.connectorSetProperty w.calls conn_id prop_id value,
    w.log (Call.connectorSetProperty conn_id prop_id value))

/-- The call `drmModeGetCrtc(fd, id)`. -/
def drmModeGetCrtc (k : Kernel) (w : World) (id : Int) : Option Crtc × World :=
  (k.getCrtc w.calls id, w.log (Call.getCrtc id))

/-- The call `drmModeSetCrtc(fd, saved->crtc_id, ..., &conn_id, 1, &saved->mode)`;
the code ignores its result. -/
def drmModeSetCrtc (w : World) (saved : Crtc) (conn_id : Nat) : World :=
  w.log (Call.setCrtc saved conn_id)

/-- The call `drmSetMaster(fd)`: mastership is held afterwards when the kernel
answers 0. -/
def drmSetMaster (k : Kernel) (w : World) : Int × World :=
  (k.setMaster w.calls,
    { calls := Call.setMaster :: w.calls, master := w.master || decide (k.setMaster w.calls = 0) })

/-- The call `drmDropMaster(fd)`: mastership is not held afterwards; the code
ignores its result. -/
def drmDropMaster (w : World) : World :=
  { calls := Call.dropMaster :: w.calls, master := false }

/-! ## Program state -/

/-- A mode: `struct uterm_mode` with its `uterm_drm_mode` payload. -/
structure Mode where
  info : ModeInfo
  deriving DecidableEq, Repr

/-- A display: `struct uterm_display` with its `uterm_drm_display` payload.
`available` and `online` are the bits `DISPLAY_AVAILABLE` and `DISPLAY_ONLINE`
of `flags`. -/
structure Display where
  conn_id : Nat
  crtc_id : Int
  saved_crtc : Option Crtc
  dpms : Int
  available : Bool
  online : Bool
  modes : List Mode
  default_mode : Option Mode
  deriving DecidableEq, Repr

/-- A video device: `struct uterm_video`.  `awake` and `hotplug` are the bits
`VIDEO_AWAKE` and `VIDEO_HOTPLUG` of `flags`. -/
structure Video where
  awake : Bool
  hotplug : Bool
  displays : List Display
  deriving DecidableEq, Repr

/-! ## DPMS -/

/-- The `switch (state)` of `uterm_drm_set_dpms`: the raw value to write, or
`none` for the `default:` case. -/
def dpms_set_value (state : Int) : Option Nat :=
  if state = UTERM_DPMS_ON then some DRM_MODE_DPMS_ON
  else if state = UTERM_DPMS_STANDBY then some DRM_MODE_DPMS_STANDBY
  else if state = UTERM_DPMS_SUSPEND then some DRM_MODE_DPMS_SUSPEND
  else if state = UTERM_DPMS_OFF then some DRM_MODE_DPMS_OFF
  else none

/-- The property loop of `uterm_drm_set_dpms`.  The result is `ret`, whether
the loop ran to its end (`i == conn->count_props`), and the world. -/
def set_dpms_loop (k : Kernel) (conn_id set : Nat) :
    Int → World → List (Nat × Nat) → Int × Bool × World
  | ret, w, [] => (ret, true, w)
  | ret, w, p :: ps =>
    match (drmModeGetProperty k w p.1).1 with
    | none => set_dpms_loop k conn_id set ret (drmModeGetProperty k w p.1).2 ps
    | some prop =>
      if prop.name = "DPMS" then
        let r := drmModeConnectorSetProperty k (drmModeGetProperty k w p.1).2 conn_id
          prop.prop_id set
        (if r.1 ≠ 0 then -EFAULT else r.1, false, r.2)
      else set_dpms_loop k conn_id set ret (drmModeGetProperty k w p.1).2 ps

/-- The function `uterm_drm_set_dpms(fd, conn_id, state)`. -/
def uterm_drm_set_dpms (k : Kernel) (w : World) (conn_id : Nat) (state : Int) : Int × World :=
  match dpms_set_value state with
  | none => (-EINVAL, w)
  | some set =>
    match (drmModeGetConnector k w conn_id).1 with
    | none => (-EFAULT, (drmModeGetConnector k w conn_id).2)
    | some conn =>
      let r := set_dpms_loop k conn_id set state (drmModeGetConnector k w conn_id).2 conn.props
      (if r.2.1 then UTERM_DPMS_UNKNOWN else r.1, r.2.2)

/-- The `switch (conn->prop_values[i])` of `uterm_drm_get_dpms`. -/
def dpms_of_raw (value : Nat) : Int :=
  if value = DRM_MODE_DPMS_ON then UTERM_DPMS_ON
  else if value = DRM_MODE_DPMS_STANDBY then UTERM_DPMS_STANDBY
  else if value = DRM_MODE_DPMS_SUSPEND then UTERM_DPMS_SUSPEND
  else UTERM_DPMS_OFF

/-- The property loop of `uterm_drm_get_dpms`. -/
def get_dpms_loop (k : Kernel) : World → List (Nat × Nat) → Int × World
  | w, [] => (UTERM_DPMS_UNKNOWN, w)
  | w, p :: ps =>
    match (drmModeGetProperty k w p.1).1 with
    | none => get_dpms_loop k (drmModeGetProperty k w p.1).2 ps
    | some prop =>
      if prop.name = "DPMS" then (dpms_of_raw p.2, (drmModeGetProperty k w p.1).2)
      else get_dpms_loop k (drmModeGetProperty k w p.1).2 ps

/-- The function `uterm_drm_get_dpms(fd, conn)`. -/
def uterm_drm_get_dpms (k : Kernel) (w : World) (conn : Connector) : Int × World :=
  get_dpms_loop k w conn.props

/-- The function `uterm_drm_display_set_dpms(disp, state)`. -/
def uterm_drm_display_set_dpms (k : Kernel) (w : World) (disp : Display) (state : Int) :
    Int × World × Display :=
  let r := uterm_drm_set_dpms k w disp.conn_id state
  if r.1 < 0 then (r.1, r.2, disp)
  else (0, r.2, { disp with dpms := r.1 })

/-! ## CRTC allocation -/

/-- The inner loop of `uterm_drm_video_find_crtc`: true when the walk over
`video->displays` stops at a display whose `crtc_id` equals `crtc`. -/
def crtc_claimed (displays : List Display) (crtc : Int) : Bool :=
  displays.any (fun d => decide (d.crtc_id = crtc))

/-- The outer loop of `uterm_drm_video_find_crtc`, from index `i` on. -/
def find_crtc_loop (displays : List Display) (possible_crtcs : Nat) : Nat → List Nat → Int
  | _, [] => -1
  | i, c :: cs =>
    if possible_crtcs &&& (1 <<< i) ≠ 0 then
      if crtc_claimed displays (toInt32 c) then find_crtc_loop displays possible_crtcs (i + 1) cs
      else toInt32 c
    else find_crtc_loop displays possible_crtcs (i + 1) cs

/-- The function `uterm_drm_video_find_crtc(video, res, enc)`.  The shift
`1 << i` is defined in C only for `i < 31`. -/
def uterm_drm_video_find_crtc (video : Video) (res : Res) (enc : Encoder) : Int :=
  find_crtc_loop video.displays enc.possible_crtcs 0 res.crtcs

/-! ## Activation and deactivation -/

/-- The encoder loop of `uterm_drm_display_activate`; `crtc` starts at -1. -/
def activate_loop (k : Kernel) (video : Video) (res : Res) : Int → World → List Nat → Int × World
  | crtc, w, [] => (crtc, w)
  | crtc, w, e :: es =>
    match (drmModeGetEncoder k w e).1 with
    | none => activate_loop k video res crtc (drmModeGetEncoder k w e).2 es
    | some enc =>
      if uterm_drm_video_find_crtc video res enc ≥ 0 then
        (uterm_drm_video_find_crtc video res enc, (drmModeGetEncoder k w e).2)
      else
        activate_loop k video res (uterm_drm_video_find_crtc video res enc)
          (drmModeGetEncoder k w e).2 es

/-- The function `uterm_drm_display_activate(disp, fd)`, with `video` the
device `disp->video`. -/
def uterm_drm_display_activate (k : Kernel) (w : World) (video : Video) (disp : Display) :
    Int × World × Display :=
  match (drmModeGetResources k w).1 with
  | none => (-EFAULT, (drmModeGetResources k w).2, disp)
  | some res =>
    match (drmModeGetConnector k (drmModeGetResources k w).2 disp.conn_id).1 with
    | none => (-EFAULT, (drmModeGetConnector k (drmModeGetResources k w).2 disp.conn_id).2, disp)
    | some conn =>
      let r := activate_loop k video res (-1)
        (drmModeGetConnector k (drmModeGetResources k w).2 disp.conn_id).2 conn.encoders
      if r.1 < 0 then (-ENODEV, r.2, disp)
      else
        let g := drmModeGetCrtc k r.2 r.1
        (0, g.2, { disp with crtc_id := r.1, saved_crtc := g.1 })

/-- The function `uterm_drm_display_deactivate(disp, fd)`, with `video` the
device `disp->video`. -/
def uterm_drm_display_deactivate (w : World) (video : Video) (disp : Display) :
    World × Display :=
  match disp.saved_crtc with
  | some saved =>
    (if video.awake then drmModeSetCrtc w saved disp.conn_id else w,
      { disp with saved_crtc := none, crtc_id := 0 })
  | none => (w, { disp with crtc_id := 0 })

/-! ## Binding a display to a connector -/

/-- Modelled from the spec: `display_new` is defined in `uterm_video.c`,
outside this translation unit.  It creates a Display or fails (OutOfMemory);
the payload is zeroed by `uterm_drm_display_init`, the mode collection is empty
and no default mode is set. -/
def display_new (k : Kernel) (w : World) : Int × World × Display :=
  (k.display_new w.calls, w.log Call.display_new,
    { conn_id := 0, crtc_id := 0, saved_crtc := none, dpms := UTERM_DPMS_UNKNOWN,
      available := false, online := false, modes := [], default_mode := none })

/-- Modelled from the spec: `mode_new` is defined in `uterm_video.c`, outside
this translation unit.  It creates a zeroed ModeRecord or fails
(OutOfMemory). -/
def mode_new (k : Kernel) (w : World) : Int × World × Mode :=
  (k.mode_new w.calls, w.log Call.mode_new,
    { info := { name := "", hdisplay := 0, vdisplay := 0 } })

/-- The function `uterm_drm_mode_set(mode, info)`: copies the descriptor. -/
def uterm_drm_mode_set (_mode : Mode) (info : ModeInfo) : Mode := { info := info }

/-- Modelled from the spec: `uterm_mode_bind` is defined in `uterm_video.c`,
outside this translation unit.  It attaches the mode at the end of the
Display's ordered mode collection, or fails leaving the Display as it was. -/
def uterm_mode_bind (k : Kernel) (w : World) (mode : Mode) (disp : Display) :
    Int × World × Display :=
  if k.mode_bind w.calls ≠ 0 then (k.mode_bind w.calls, w.log Call.mode_bind, disp)
  else (0, w.log Call.mode_bind, { disp with modes := disp.modes ++ [mode] })

/-- Modelled from the spec: `uterm_display_bind` is defined in `uterm_video.c`,
outside this translation unit.  It registers the Display at the end of the
device's display collection, or fails leaving the device as it was. -/
def uterm_display_bind (k : Kernel) (w : World) (disp : Display) (video : Video) :
    Int × World × Video :=
  if k.display_bind w.calls ≠ 0 then (k.display_bind w.calls, w.log Call.display_bind, video)
  else (0, w.log Call.display_bind, { video with displays := video.displays ++ [disp] })

/-- The mode loop of `bind_display` over `conn->modes`. -/
def bind_modes (k : Kernel) : World → Display → List ModeInfo → World × Display
  | w, disp, [] => (w, disp)
  | w, disp, info :: rest =>
    if (mode_new k w).1 ≠ 0 then bind_modes k (mode_new k w).2.1 disp rest
    else
      let mode := uterm_drm_mode_set (mode_new k w).2.2 info
      let b := uterm_mode_bind k (mode_new k w).2.1 mode disp
      if b.1 ≠ 0 then bind_modes k b.2.1 disp rest
      else
        bind_modes k b.2.1
          (if b.2.2.default_mode.isNone then { b.2.2 with default_mode := some mode } else b.2.2)
          rest

/-- The function `bind_display(video, res, conn, ops)`. -/
def bind_display (k : Kernel) (w : World) (video : Video) (_res : Res) (conn : Connector) :
    World × Video :=
  let n := display_new k w
  if n.1 ≠ 0 then (n.2.1, video)
  else
    let m := bind_modes k n.2.1 n.2.2 conn.modes
    if m.2.modes.isEmpty then (m.1, video)
    else
      let g := uterm_drm_get_dpms k m.1 conn
      let disp : Display :=
        { m.2 with conn_id := conn.connector_id, available := true, dpms := g.1 }
      let b := uterm_display_bind k g.2 disp video
      if b.1 ≠ 0 then (b.2.1, video) else (b.2.1, b.2.2)

/-! ## Hotplug reconciliation -/

/-- Modelled from the spec: `video_is_awake` is defined in
`uterm_video_internal.h`, outside this translation unit; it tests the AWAKE
flag. -/
def video_is_awake (video : Video) : Bool := video.awake

/-- Modelled from the spec: `video_need_hotplug` is defined in
`uterm_video_internal.h`, outside this translation unit; it tests the
HOTPLUG_PENDING flag. -/
def video_need_hotplug (video : Video) : Bool := video.hotplug

/-- Modelled from the spec: `display_is_online` is defined in
`uterm_video_internal.h`, outside this translation unit; it tests the ONLINE
flag of a bound Display. -/
def display_is_online (disp : Display) : Bool := disp.online

/-- The body of the display loop of `uterm_drm_video_hotplug` for the display
whose `conn_id` matches: sets AVAILABLE and, if asked, refreshes DPMS. -/
def hotplug_refresh (k : Kernel) (read_dpms : Bool) (w : World) (conn : Connector)
    (disp : Display) : World × Display :=
  if !read_dpms || !display_is_online { disp with available := true } then
    (w, { disp with available := true })
  else
    let g := uterm_drm_get_dpms k w conn
    if g.1 ≠ disp.dpms then
      let s := uterm_drm_display_set_dpms k g.2 { disp with available := true } disp.dpms
      (s.2.1, s.2.2)
    else (g.2, { disp with available := true })

/-- The display loop of `uterm_drm_video_hotplug` for connector `id`: `none`
when the walk reaches the list head (`iter == &video->displays`). -/
def hotplug_find (k : Kernel) (read_dpms : Bool) (id : Nat) (conn : Connector) :
    World → List Display → Option (World × List Display)
  | _, [] => none
  | w, d :: ds =>
    if d.conn_id ≠ id then
      match hotplug_find k read_dpms id conn w ds with
      | none => none
      | some r => some (r.1, d :: r.2)
    else
      some ((hotplug_refresh k read_dpms w conn d).1,
        (hotplug_refresh k read_dpms w conn d).2 :: ds)

/-- One iteration of the connector loop of `uterm_drm_video_hotplug`. -/
def hotplug_connector (k : Kernel) (read_dpms : Bool) (res : Res) (s : World × Video)
    (id : Nat) : World × Video :=
  match (drmModeGetConnector k s.1 id).1 with
  | none => ((drmModeGetConnector k s.1 id).2, s.2)
  | some conn =>
    if conn.connection ≠ DRM_MODE_CONNECTED then ((drmModeGetConnector k s.1 id).2, s.2)
    else
      match hotplug_find k read_dpms id conn (drmModeGetConnector k s.1 id).2 s.2.displays with
      | some f => (f.1, { s.2 with displays := f.2 })
      | none => bind_display k (drmModeGetConnector k s.1 id).2 s.2 res conn

/-- The connector loop of `uterm_drm_video_hotplug` over `res->connectors`. -/
def hotplug_scan (k : Kernel) (read_dpms : Bool) (res : Res) :
    World × Video → List Nat → World × Video
  | s, [] => s
  | s, id :: ids => hotplug_scan k read_dpms res (hotplug_connector k read_dpms res s id) ids

/-- Modelled from the spec: `uterm_display_unbind` is defined in
`uterm_video.c`, outside this translation unit; it removes the Display from the
device's collection and releases it.  This is the last loop of
`uterm_drm_video_hotplug`, which unbinds every Display lacking AVAILABLE. -/
def hotplug_unbind : List Display → List Display
  | [] => []
  | d :: ds => if !d.available then hotplug_unbind ds else d :: hotplug_unbind ds

/-- The function `uterm_drm_video_hotplug(video, ops, read_dpms)`. -/
def uterm_drm_video_hotplug (k : Kernel) (w : World) (video : Video) (read_dpms : Bool) :
    Int × World × Video :=
  if !video_is_awake video || !video_need_hotplug video then (0, w, video)
  else
    match (drmModeGetResources k w).1 with
    | none => (-EACCES, (drmModeGetResources k w).2, video)
    | some res =>
      let s := hotplug_scan k read_dpms res
        ((drmModeGetResources k w).2,
          { video with displays := video.displays.map (fun d => { d with available := false }) })
        res.connectors
      (0, s.1, { s.2 with displays := hotplug_unbind s.2.displays, hotplug := false })

/-! ## Wake-up and sleep -/

/-- The function `uterm_drm_video_wake_up(video, ops)`. -/
def uterm_drm_video_wake_up (k : Kernel) (w : World) (video : Video) : Int × World × Video :=
  if (drmSetMaster k w).1 ≠ 0 then (-EACCES, (drmSetMaster k w).2, video)
  else
    let h := uterm_drm_video_hotplug k (drmSetMaster k w).2 { video with awake := true } true
    if h.1 ≠ 0 then (h.1, drmDropMaster h.2.1, h.2.2) else (0, h.2.1, h.2.2)

/-- The function `uterm_drm_video_sleep(video)`. -/
def uterm_drm_video_sleep (w : World) (video : Video) : World × Video :=
  (drmDropMaster w, video)

/-- The function `uterm_drm_video_poll(video, ops)`. -/
def uterm_drm_video_poll (k : Kernel) (w : World) (video : Video) : Int × World × Video :=
  uterm_drm_video_hotplug k w { video with hotplug := true } false

/-! ## Specification predicates and concrete inputs -/

/-- Some display of the collection records `crtc` as its crtc id. -/
def Claimed (displays : List Display) (crtc : Int) : Prop :=
  ∃ d ∈ displays, d.crtc_id = crtc

/-- Two displays do not share a crtc id while both are activated (their
`crtc_id` is non-zero). -/
def CrtcDistinct (ds : List Display) : Prop :=
  ds.Pairwise (fun a b => a.crtc_id ≠ 0 → b.crtc_id ≠ 0 → a.crtc_id ≠ b.crtc_id)

/-- A device without displays. -/
def video_empty : Video := { awake := false, hotplug := false, displays := [] }

/-- A resource list whose only CRTC id is the largest `uint32_t`. -/
def res_wrap : Res := { crtcs := [4294967295], connectors := [] }

/-- An encoder compatible with CRTC index 0 only. -/
def enc_first : Encoder := { possible_crtcs := 1 }

/-- A mode descriptor. -/
def info_a : ModeInfo := { name := "1024x768", hdisplay := 1024, vdisplay := 768 }

/-- A display on connector 20 that holds CRTC 5. -/
def disp_on5 : Display :=
  { conn_id := 20, crtc_id := 5, saved_crtc := none, dpms := UTERM_DPMS_ON, available := true,
    online := false, modes := [{ info := info_a }], default_mode := some { info := info_a } }

/-- A device whose only display holds CRTC 5. -/
def video_one : Video := { awake := true, hotplug := false, displays := [disp_on5] }

/-- A resource list with the CRTC ids 5 and 7. -/
def res_two : Res := { crtcs := [5, 7], connectors := [20] }

/-- An encoder compatible with the CRTC indices 0 and 1. -/
def enc_both : Encoder := { possible_crtcs := 3 }

/-- No property fetch of the scan over `props`, started in world `w`, answers
with a property named "DPMS". -/
def no_dpms_fetched (k : Kernel) : World → List (Nat × Nat) → Bool
  | _, [] => true
  | w, p :: ps =>
    (match (drmModeGetProperty k w p.1).1 with
      | none => true
      | some prop => !decide (prop.name = "DPMS")) &&
    no_dpms_fetched k (drmModeGetProperty k w p.1).2 ps

/-- The world before any call, mastership not held. -/
def world_start : World := { calls := [], master := false }

/-- A kernel where every call succeeds: one CRTC pair, connectors connected
with one mode and a "DPMS" property, every encoder compatible with both
CRTCs. -/
def kernel_ok : Kernel where
  getResources := fun _ => some { crtcs := [5, 7], connectors := [20, 21] }
  getConnector := fun _ id =>
    some { connector_id := id, connection := DRM_MODE_CONNECTED, encoders := [30],
           props := [(7, 0)], modes := [info_a] }
  getEncoder := fun _ _ => some { possible_crtcs := 3 }
  getProperty := fun _ id => some { prop_id := id, name := "DPMS" }
  connectorSetProperty := fun _ _ _ _ => 0
  getCrtc := fun _ _ => some { crtc_id := 7, buffer_id := 1, x := 0, y := 0, mode := info_a }
  setMaster := fun _ => 0
  display_new := fun _ => 0
  mode_new := fun _ => 0
  mode_bind := fun _ => 0
  display_bind := fun _ => 0

/-- A kernel whose resource fetch fails. -/
def kernel_nores : Kernel := { kernel_ok with getResources := fun _ => none }

/-- A kernel whose connectors carry no "DPMS" property. -/
def kernel_nodpms : Kernel :=
  { kernel_ok with getProperty := fun _ id => some { prop_id := id, name := "EDID" } }

/-- A bound display on connector 21, not activated. -/
def disp_idle : Display :=
  { conn_id := 21, crtc_id := 0, saved_crtc := none, dpms := UTERM_DPMS_ON, available := true,
    online := false, modes := [{ info := info_a }], default_mode := some { info := info_a } }

/-- A device with one activated and one idle display. -/
def video_two : Video := { awake := true, hotplug := false, displays := [disp_on5, disp_idle] }

/-- A sleeping device with a pending hotplug and no display. -/
def video_asleep : Video := { awake := false, hotplug := true, displays := [] }

/-- The display `bind_display` has built for `conn` when it reaches the mode
check: the fresh display after the mode loop. -/
def bind_built (k : Kernel) (w : World) (conn : Connector) : World × Display :=
  bind_modes k (display_new k w).2.1 (display_new k w).2.2 conn.modes

/-- The world in which `bind_display` asks for the registration of the display
built for `conn`. -/
def bind_register_world (k : Kernel) (w : World) (conn : Connector) : World :=
  (uterm_drm_get_dpms k (bind_built k w conn).1 conn).2

/-- The three steps of `bind_display` that can fail all succeed: the display is
created, at least one mode attaches, and the registration is accepted. -/
def bind_succeeds (k : Kernel) (w : World) (conn : Connector) : Bool :=
  decide (k.display_new w.calls = 0) && !(bind_built k w conn).2.modes.isEmpty &&
    decide (k.display_bind (bind_register_world k w conn).calls = 0)

/-- What reconciliation leaves untouched on a known display: everything but
the AVAILABLE flag and the recorded dpms. -/
def Frame (d0 d : Display) : Prop :=
  d.conn_id = d0.conn_id ∧ d.crtc_id = d0.crtc_id ∧ d.saved_crtc = d0.saved_crtc ∧
    d.modes = d0.modes ∧ d.default_mode = d0.default_mode ∧ d.online = d0.online

/-- A display bound during the scan for connector `id`. -/
def Fresh (id : Nat) (d : Display) : Prop :=
  d.conn_id = id ∧ d.available = true ∧ d.modes ≠ [] ∧ d.crtc_id = 0 ∧ d.saved_crtc = none

/-- No creation, attachment or registration ever fails, and every connector
the kernel reports as connected carries at least one mode. -/
def NoFail (k : Kernel) : Prop :=
  (∀ h, k.display_new h = 0) ∧ (∀ h, k.mode_new h = 0) ∧ (∀ h, k.mode_bind h = 0) ∧
    (∀ h, k.display_bind h = 0) ∧
    (∀ h id conn, k.getConnector h id = some conn →
      conn.connection = DRM_MODE_CONNECTED → conn.modes ≠ [])

/-- The answer to the connector fetch of the scan for `id` in world `w`: true
when the fetch succeeds with `connection == DRM_MODE_CONNECTED`. -/
def reported_connected (k : Kernel) (w : World) (id : Nat) : Bool :=
  match (drmModeGetConnector k w id).1 with
  | none => false
  | some conn => decide (conn.connection = DRM_MODE_CONNECTED)

/-- The connector ids the kernel reported as connected during the connector
loop of `uterm_drm_video_hotplug` started in state `s`: those
`res->connectors[i]` whose fetch succeeded with
`connection == DRM_MODE_CONNECTED`, in scan order. -/
def scan_connected (k : Kernel) (read_dpms : Bool) (res : Res) :
    World × Video → List Nat → List Nat
  | _, [] => []
  | s, id :: ids =>
    (if reported_connected k s.1 id then [id] else []) ++
      scan_connected k read_dpms res (hotplug_connector k read_dpms res s id) ids

/-- The invariant of the connector loop of `uterm_drm_video_hotplug`, relative
to the displays `known` before the call and the connector ids `seen` reported
as connected so far: AVAILABLE is set only on displays of connectors seen, a
connector seen that has a display has an available one, every known display is
still present with its frame intact, and every other display was bound during
the scan for a connector no known display had. -/
def ScanInv (known : List Display) (seen : List Nat) (ds : List Display) : Prop :=
  (∀ d ∈ ds, d.available = true → d.conn_id ∈ seen) ∧
  (∀ id ∈ seen, (∃ d ∈ ds, d.conn_id = id) → ∃ d ∈ ds, d.conn_id = id ∧ d.available = true) ∧
  (∀ d0 ∈ known, ∃ d ∈ ds, Frame d0 d) ∧
  (∀ d ∈ ds, (∃ d0 ∈ known, Frame d0 d) ∨
    (Fresh d.conn_id d ∧ ∀ d0 ∈ known, d0.conn_id ≠ d.conn_id))

/-- The state in which the connector loop of a reconciliation starts: the world
after the resource fetch, every display with AVAILABLE cleared. -/
def scan_start (k : Kernel) (w : World) (video : Video) : World × Video :=
  ((drmModeGetResources k w).2,
    { video with displays := video.displays.map (fun d => { d with available := false }) })

/-- The connector ids the kernel reports as connected during the reconciliation
`uterm_drm_video_hotplug k w video read_dpms` whose resource fetch gave `res`. -/
def hotplug_connected (k : Kernel) (w : World) (video : Video) (read_dpms : Bool) (res : Res) :
    List Nat :=
  scan_connected k read_dpms res (scan_start k w video) res.connectors

/-- A kernel whose connected connectors report no mode at all. -/
def kernel_nomodes : Kernel :=
  { kernel_ok with
    getConnector := fun _ id =>
      some { connector_id := id, connection := DRM_MODE_CONNECTED, encoders := [30],
             props := [(7, 0)], modes := [] } }

/-- A kernel on which connector 20 is connected and every other connector is
not. -/
def kernel_half : Kernel :=
  { kernel_ok with
    getConnector := fun _ id =>
      some { connector_id := id, connection := if id = 20 then DRM_MODE_CONNECTED else 2,
             encoders := [30], props := [(7, 0)], modes := [info_a] } }

/-- An awake device with a pending hotplug and no display. -/
def video_pending : Video := { awake := true, hotplug := true, displays := [] }

/-- An awake device with a pending hotplug and displays on the connectors 20
and 21. -/
def video_known : Video := { awake := true, hotplug := true, displays := [disp_on5, disp_idle] }

/-- The two connectors of the concrete kernels. -/
def res_ok : Res := { crtcs := [5, 7], connectors := [20, 21] }

/-- A kernel whose connector list names the connected connector 20 twice. -/
def kernel_twice : Kernel :=
  { kernel_ok with getResources := fun _ => some { crtcs := [5, 7], connectors := [20, 20] } }

/-- An awake device without pending hotplug, with two displays. -/
def video_settled : Video := { awake := true, hotplug := false, displays := [disp_on5, disp_idle] }

/-- The world after the encoder loop of `uterm_drm_display_activate` has
fetched the encoders `es` one after the other. -/
def encoders_fetched (w : World) (es : List Nat) : World :=
  es.foldl (fun w e => w.log (Call.getEncoder e)) w

/-- Some encoder of `es`, fetched in loop order starting in world `w`, is
fetched successfully and `uterm_drm_video_find_crtc` returns an id for it (a
non-negative value). -/
def encoder_yields (k : Kernel) (video : Video) (res : Res) : World → List Nat → Bool
  | _, [] => false
  | w, e :: es =>
    (match (drmModeGetEncoder k w e).1 with
      | none => false
      | some enc => decide (uterm_drm_video_find_crtc video res enc ≥ 0)) ||
    encoder_yields k video res (drmModeGetEncoder k w e).2 es

/-- A kernel whose only CRTC has id 5. -/
def kernel_single : Kernel :=
  { kernel_ok with
    getResources := fun _ => some { crtcs := [5], connectors := [20] }
    getEncoder := fun _ _ => some { possible_crtcs := 1 } }

/-- A kernel on which encoder 30 cannot be fetched, encoder 31 is compatible
with CRTC index 0 only and every other encoder with the indices 0 and 1; the
connectors list the encoders 30, 31 and 32. -/
def kernel_encoders : Kernel :=
  { kernel_ok with
    getConnector := fun _ id =>
      some { connector_id := id, connection := DRM_MODE_CONNECTED, encoders := [30, 31, 32],
             props := [(7, 0)], modes := [info_a] }
    getEncoder := fun _ id =>
      if id = 30 then none else if id = 31 then some { possible_crtcs := 1 }
      else some { possible_crtcs := 3 } }

/-- Some encoder of `es`, fetched in loop order starting in world `w`, is
fetched successfully and is compatible with a CRTC of `res` whose id is not the
crtc id recorded by any display of the device. -/
def encoder_offers (k : Kernel) (video : Video) (res : Res) : World → List Nat → Prop
  | _, [] => False
  | w, e :: es =>
    (∃ enc, (drmModeGetEncoder k w e).1 = some enc ∧
      ∃ i c : Nat, res.crtcs[i]? = some c ∧ enc.possible_crtcs.testBit i = true ∧
        ¬ Claimed video.displays (c : Int)) ∨
    encoder_offers k video res (drmModeGetEncoder k w e).2 es

/-- The world after the property loop of `uterm_drm_get_dpms` has fetched the
properties `ps` one after the other. -/
def props_fetched (w : World) (ps : List (Nat × Nat)) : World :=
  ps.foldl (fun w p => w.log (Call.getProperty p.1)) w

/-- A connector whose first property cannot be fetched and whose second
property carries the raw value SUSPEND. -/
def conn_props : Connector :=
  { connector_id := 21, connection := DRM_MODE_CONNECTED, encoders := [30],
    props := [(6, 1), (7, 2)], modes := [info_a] }

/-- A kernel on which property 6 cannot be fetched and every other property is
named "DPMS". -/
def kernel_props : Kernel :=
  { kernel_ok with
    getProperty := fun _ id => if id = 6 then none else some { prop_id := id, name := "DPMS" } }

/-- One call on a display, with the state `video` of its device at the time of
the call. -/
inductive DisplayOp where
  | activate (video : Video)
  | deactivate (video : Video)

/-- Runs one call on a display.  The third component records whether the
display is activated: it is set by a successful
`uterm_drm_display_activate`, cleared by `uterm_drm_display_deactivate` and
left as it is by a failed activation (which changes nothing). -/
def run_op (k : Kernel) (s : World × Display × Bool) : DisplayOp → World × Display × Bool
  | DisplayOp.activate video =>
    ((uterm_drm_display_activate k s.1 video s.2.1).2.1,
      (uterm_drm_display_activate k s.1 video s.2.1).2.2,
      if (uterm_drm_display_activate k s.1 video s.2.1).1 = 0 then true else s.2.2)
  | DisplayOp.deactivate video =>
    ((uterm_drm_display_deactivate s.1 video s.2.1).1,
      (uterm_drm_display_deactivate s.1 video s.2.1).2, false)

/-- Runs a sequence of calls on a display. -/
def run_ops (k : Kernel) (s : World × Display × Bool) (ops : List DisplayOp) :
    World × Display × Bool :=
  ops.foldl (run_op k) s

/-- A kernel whose CRTC fetch fails. -/
def kernel_nocrtc : Kernel := { kernel_ok with getCrtc := fun _ _ => none }

/-- An online display on connector 20 whose recorded DPMS state is OFF. -/
def disp_off : Display :=
  { conn_id := 20, crtc_id := 5, saved_crtc := none, dpms := UTERM_DPMS_OFF, available := true,
    online := true, modes := [{ info := info_a }], default_mode := some { info := info_a } }

/-- An awake device with a pending hotplug whose only display is `disp_off`. -/
def video_drift : Video := { awake := true, hotplug := true, displays := [disp_off] }

/-- The step of the connector loop for `id` in state `s` binds a new display:
the connector is fetched and reported connected, no display of the collection
sits on it, and `bind_display` succeeds in that state (the display is created,
at least one mode attaches and the registration is accepted). -/
def bound_now (k : Kernel) (s : World × Video) (id : Nat) : Bool :=
  match (drmModeGetConnector k s.1 id).1 with
  | none => false
  | some conn =>
    decide (conn.connection = DRM_MODE_CONNECTED) &&
      !(s.2.displays.any (fun d => decide (d.conn_id = id))) &&
      bind_succeeds k (drmModeGetConnector k s.1 id).2 conn

/-- The connector ids for which the connector loop of `uterm_drm_video_hotplug`,
started in state `s`, binds a new display, in scan order. -/
def scan_bound (k : Kernel) (read_dpms : Bool) (res : Res) :
    World × Video → List Nat → List Nat
  | _, [] => []
  | s, id :: ids =>
    (if bound_now k s id then [id] else []) ++
      scan_bound k read_dpms res (hotplug_connector k read_dpms res s id) ids

/-- The connector ids for which the reconciliation
`uterm_drm_video_hotplug k w video read_dpms`, whose resource fetch gave `res`,
binds a new display. -/
def hotplug_bound (k : Kernel) (w : World) (video : Video) (read_dpms : Bool) (res : Res) :
    List Nat :=
  scan_bound k read_dpms res (scan_start k w video) res.connectors

/-- A kernel on which connector 20 reports one mode and every other connector
none, all of them connected. -/
def kernel_mixed : Kernel :=
  { kernel_ok with
    getConnector := fun _ id =>
      some { connector_id := id, connection := DRM_MODE_CONNECTED, encoders := [30],
             props := [(7, 0)], modes := if id = 20 then [info_a] else [] } }

/-! # Theorems -/

/-! ## CRTC allocation -/

theorem mask_bit_iff (m i : Nat) : m &&& (1 <<< i) ≠ 0 ↔ m.testBit i = true := by
  rw [Nat.one_shiftLeft, Nat.and_two_pow]
  cases h : m.testBit i <;> simp

theorem crtc_claimed_iff (ds : List Display) (c : Int) :
    crtc_claimed ds c = true ↔ Claimed ds c := by
  simp [crtc_claimed, Claimed]

theorem toInt32_small {c : Nat} (h : c < 2 ^ 31) : toInt32 c = (c : Int) := by
  have h1 : c % 2 ^ 32 = c := Nat.mod_eq_of_lt (by omega)
  simp only [toInt32, h1]
  rw [if_pos h]

theorem find_crtc_loop_spec (ds : List Display) (m : Nat) (cs : List Nat) :
    ∀ i : Nat, (∀ c ∈ cs, c < 2 ^ 31) →
      (find_crtc_loop ds m i cs = -1 ↔
        ∀ j c : Nat, cs[j]? = some c → m.testBit (i + j) = true → Claimed ds (c : Int)) ∧
      (find_crtc_loop ds m i cs ≠ -1 →
        ∃ j c : Nat, cs[j]? = some c ∧ m.testBit (i + j) = true ∧ ¬ Claimed ds (c : Int) ∧
          (∀ j2 c2 : Nat, j2 < j → cs[j2]? = some c2 → m.testBit (i + j2) = true →
            Claimed ds (c2 : Int)) ∧
          find_crtc_loop ds m i cs = (c : Int)) := by
  induction cs with
  | nil => intro i _; simp [find_crtc_loop]
  | cons c cs ih =>
    intro i hid
    have hc : toInt32 c = (c : Int) := toInt32_small (hid c (List.mem_cons_self _ _))
    have hrest : ∀ x ∈ cs, x < 2 ^ 31 := fun x hx => hid x (List.mem_cons_of_mem _ hx)
    obtain ⟨ih1, ih2⟩ := ih (i + 1) hrest
    have shift : ∀ j, i + 1 + j = i + (j + 1) := fun j => by omega
    by_cases hb : m.testBit i = true
    · by_cases hcl : Claimed ds (c : Int)
      · have hloop : find_crtc_loop ds m i (c :: cs) = find_crtc_loop ds m (i + 1) cs := by
          simp [find_crtc_loop, (mask_bit_iff m i).2 hb, hc, (crtc_claimed_iff ds c).2 hcl]
        rw [hloop]
        constructor
        · rw [ih1]
          constructor
          · intro h j x hj hbit
            cases j with
            | zero => simp at hj; subst hj; exact hcl
            | succ j => exact h j x (by simpa using hj) (by rw [shift]; exact hbit)
          · intro h j x hj hbit
            exact h (j + 1) x (by simpa using hj) (by rw [← shift]; exact hbit)
        · intro hne
          obtain ⟨j, x, hj, hbit, hncl, hmin, hres⟩ := ih2 hne
          refine ⟨j + 1, x, by simpa using hj, by rw [← shift]; exact hbit, hncl, ?_, hres⟩
          intro j2 c2 hlt hj2 hbit2
          cases j2 with
          | zero => simp at hj2; subst hj2; exact hcl
          | succ j2 =>
            exact hmin j2 c2 (by omega) (by simpa using hj2) (by rw [shift]; exact hbit2)
      · have hncl : crtc_claimed ds (c : Int) = false := by
          cases h : crtc_claimed ds (c : Int)
          · rfl
          · exact absurd ((crtc_claimed_iff ds c).1 h) hcl
        have hloop : find_crtc_loop ds m i (c :: cs) = (c : Int) := by
          simp [find_crtc_loop, (mask_bit_iff m i).2 hb, hc, hncl]
        rw [hloop]
        constructor
        · constructor
          · intro h; omega
          · intro h; exact absurd (h 0 c (by simp) (by simpa using hb)) hcl
        · intro _
          exact ⟨0, c, by simp, by simpa using hb, hcl, fun j2 c2 hlt => absurd hlt (by omega), rfl⟩
    · have hz : m &&& (1 <<< i) = 0 := by
        by_contra h; exact hb ((mask_bit_iff m i).1 h)
      have hloop : find_crtc_loop ds m i (c :: cs) = find_crtc_loop ds m (i + 1) cs := by
        simp [find_crtc_loop, hz]
      rw [hloop]
      constructor
      · rw [ih1]
        constructor
        · intro h j x hj hbit
          cases j with
          | zero => exact absurd (by simpa using hbit) hb
          | succ j => exact h j x (by simpa using hj) (by rw [shift]; exact hbit)
        · intro h j x hj hbit
          exact h (j + 1) x (by simpa using hj) (by rw [← shift]; exact hbit)
      · intro hne
        obtain ⟨j, x, hj, hbit, hncl, hmin, hres⟩ := ih2 hne
        refine ⟨j + 1, x, by simpa using hj, by rw [← shift]; exact hbit, hncl, ?_, hres⟩
        intro j2 c2 hlt hj2 hbit2
        cases j2 with
        | zero => exact absurd (by simpa using hbit2) hb
        | succ j2 =>
          exact hmin j2 c2 (by omega) (by simpa using hj2) (by rw [shift]; exact hbit2)

/-- Claim C1 as stated fails: for the one-entry CRTC list holding the id
4294967295, a mask with bit 0 set and no display at all,
`uterm_drm_video_find_crtc` returns -1 although the mask-set index 0 is not
claimed by any display (the id does not fit the `int` it is returned in). -/
theorem find_crtc_wraps_to_none :
    res_wrap.crtcs.length < 32 ∧
    ¬ (uterm_drm_video_find_crtc video_empty res_wrap enc_first = -1 ↔
        ∀ i c : Nat, res_wrap.crtcs[i]? = some c → enc_first.possible_crtcs.testBit i = true →
          Claimed video_empty.displays (c : Int)) := by
  refine ⟨by decide, ?_⟩
  intro h
  have hret : uterm_drm_video_find_crtc video_empty res_wrap enc_first = -1 := by decide
  obtain ⟨d, hd, _⟩ := h.1 hret 0 4294967295 (by decide) (by decide)
  simp [video_empty] at hd

/-- Claim C1, amended: for every CRTC id list of fewer than 32 entries whose ids
are below 2^31, every encoder mask and every display collection,
`uterm_drm_video_find_crtc` returns -1 exactly when every mask-set index is
claimed by some display, and otherwise returns `crtcs[i]` for the smallest
mask-set index `i` whose id is not claimed. -/
theorem find_crtc_first_free (video : Video) (res : Res) (enc : Encoder)
    (_hlen : res.crtcs.length < 32) (hid : ∀ c ∈ res.crtcs, c < 2 ^ 31) :
    (uterm_drm_video_find_crtc video res enc = -1 ↔
      ∀ i c : Nat, res.crtcs[i]? = some c → enc.possible_crtcs.testBit i = true →
        Claimed video.displays (c : Int)) ∧
    (uterm_drm_video_find_crtc video res enc ≠ -1 →
      ∃ i c : Nat, res.crtcs[i]? = some c ∧ enc.possible_crtcs.testBit i = true ∧
        ¬ Claimed video.displays (c : Int) ∧
        (∀ j b : Nat, j < i → res.crtcs[j]? = some b → enc.possible_crtcs.testBit j = true →
          Claimed video.displays (b : Int)) ∧
        uterm_drm_video_find_crtc video res enc = (c : Int)) := by
  have h := find_crtc_loop_spec video.displays enc.possible_crtcs res.crtcs 0 hid
  simpa [uterm_drm_video_find_crtc] using h

/-- Witness for C1: with CRTC ids 5 and 7, both compatible, and CRTC 5 held by a
display, the allocator returns 7. -/
theorem find_crtc_first_free_witness :
    res_two.crtcs.length < 32 ∧ (∀ c ∈ res_two.crtcs, c < 2 ^ 31) ∧
    uterm_drm_video_find_crtc video_one res_two enc_both = 7 ∧
    (uterm_drm_video_find_crtc video_one res_two enc_both ≠ -1 →
      ∃ i c : Nat, res_two.crtcs[i]? = some c ∧ enc_both.possible_crtcs.testBit i = true ∧
        ¬ Claimed video_one.displays (c : Int) ∧
        (∀ j b : Nat, j < i → res_two.crtcs[j]? = some b →
          enc_both.possible_crtcs.testBit j = true → Claimed video_one.displays (b : Int)) ∧
        uterm_drm_video_find_crtc video_one res_two enc_both = (c : Int)) :=
  ⟨by decide, by decide, by decide,
    (find_crtc_first_free video_one res_two enc_both (by decide) (by decide)).2⟩

/-! ## Distinct crtc ids -/

theorem find_crtc_loop_unclaimed (ds : List Display) (m : Nat) (cs : List Nat) :
    ∀ i : Nat, find_crtc_loop ds m i cs = -1 ∨
      crtc_claimed ds (find_crtc_loop ds m i cs) = false := by
  induction cs with
  | nil => intro i; left; rfl
  | cons c cs ih =>
    intro i
    unfold find_crtc_loop
    split
    · split
      · exact ih (i + 1)
      · right; simpa using ‹¬ crtc_claimed ds (toInt32 c) = true›
    · exact ih (i + 1)

theorem find_crtc_unclaimed (video : Video) (res : Res) (enc : Encoder)
    (h : uterm_drm_video_find_crtc video res enc ≥ 0) :
    ¬ Claimed video.displays (uterm_drm_video_find_crtc video res enc) := by
  rcases find_crtc_loop_unclaimed video.displays enc.possible_crtcs res.crtcs 0 with h1 | h1
  · unfold uterm_drm_video_find_crtc at h; omega
  · intro hc
    have := (crtc_claimed_iff _ _).2 hc
    unfold uterm_drm_video_find_crtc at this
    rw [h1] at this; exact absurd this (by simp)

theorem activate_loop_unclaimed (k : Kernel) (video : Video) (res : Res) (es : List Nat) :
    ∀ (crtc : Int) (w : World), crtc < 0 →
      (activate_loop k video res crtc w es).1 < 0 ∨
        ¬ Claimed video.displays (activate_loop k video res crtc w es).1 := by
  induction es with
  | nil => intro crtc w h; left; simpa [activate_loop] using h
  | cons e es ih =>
    intro crtc w h
    unfold activate_loop
    split
    · exact ih crtc _ h
    · rename_i enc _
      split
      · rename_i hge
        right; exact find_crtc_unclaimed video res enc hge
      · rename_i hlt
        exact ih _ _ (by omega)

/-- What activation may do to a display: nothing, or record an unclaimed crtc. -/
theorem activate_cases (k : Kernel) (w : World) (video : Video) (disp : Display) :
    ((uterm_drm_display_activate k w video disp).1 ≠ 0 ∧
      (uterm_drm_display_activate k w video disp).2.2 = disp) ∨
    ((uterm_drm_display_activate k w video disp).1 = 0 ∧
      0 ≤ (uterm_drm_display_activate k w video disp).2.2.crtc_id ∧
      ¬ Claimed video.displays (uterm_drm_display_activate k w video disp).2.2.crtc_id) := by
  unfold uterm_drm_display_activate
  split
  · left; simp [EFAULT]
  · rename_i res _
    split
    · left; simp [EFAULT]
    · rename_i conn _
      simp only
      split
      · left; simp [ENODEV]
      · rename_i hge
        right
        refine ⟨rfl, by simpa using hge, ?_⟩
        rcases activate_loop_unclaimed k video res conn.encoders (-1)
          (drmModeGetConnector k (drmModeGetResources k w).2 disp.conn_id).2 (by omega) with h | h
        · exact absurd h hge
        · exact h

theorem crtcDistinct_set (ds : List Display) (i : Nat) (h : i < ds.length) (d : Display)
    (hinv : CrtcDistinct ds)
    (hd : d.crtc_id = ds[i].crtc_id ∨ d.crtc_id = 0 ∨ ¬ Claimed ds d.crtc_id) :
    CrtcDistinct (ds.set i d) := by
  unfold CrtcDistinct at *
  rw [List.pairwise_iff_getElem] at *
  intro a b ha hb hab
  have ha2 : a < ds.length := by simpa using ha
  have hb2 : b < ds.length := by simpa using hb
  have key := hinv a b ha2 hb2 hab
  rw [List.getElem_set, List.getElem_set]
  by_cases hia : i = a
  · subst hia
    have hib : ¬ i = b := by omega
    simp only [if_true, hib, if_false]
    rcases hd with hd | hd | hd
    · rw [hd]; exact key
    · intro h0; exact absurd hd h0
    · intro _ _ heq
      exact hd ⟨ds[b], List.getElem_mem _, heq.symm⟩
  · by_cases hib : i = b
    · subst hib
      simp only [hia, if_false, if_true]
      rcases hd with hd | hd | hd
      · rw [hd]; exact key
      · intro _ h0; exact absurd hd h0
      · intro _ _ heq
        exact hd ⟨ds[a], List.getElem_mem _, heq⟩
    · simp only [hia, hib, if_false]; exact key

/-! ## Invariance of distinct crtc ids -/

/-- Claim C2: pairwise distinctness of the crtc ids of activated displays is
preserved by `uterm_drm_display_activate`, successful or not, and by
`uterm_drm_display_deactivate`, on any display of the device and for every
kernel answer. -/
theorem crtc_distinct_preserved (k : Kernel) (w : World) (video : Video) (i : Nat)
    (h : i < video.displays.length) (hinv : CrtcDistinct video.displays) :
    CrtcDistinct
      (video.displays.set i (uterm_drm_display_activate k w video video.displays[i]).2.2) ∧
    CrtcDistinct
      (video.displays.set i (uterm_drm_display_deactivate w video video.displays[i]).2) := by
  constructor
  · apply crtcDistinct_set _ _ h _ hinv
    rcases activate_cases k w video video.displays[i] with ⟨_, h2⟩ | ⟨_, _, h3⟩
    · left; rw [h2]
    · right; right; exact h3
  · apply crtcDistinct_set _ _ h _ hinv
    right; left
    unfold uterm_drm_display_deactivate
    split <;> rfl

/-- Witness for C2: activating the idle second display of a device whose first
display holds CRTC 5 records CRTC 7. -/
theorem crtc_distinct_preserved_witness :
    CrtcDistinct video_two.displays ∧
    (uterm_drm_display_activate kernel_ok world_start video_two disp_idle).2.2.crtc_id = 7 ∧
    CrtcDistinct
      (video_two.displays.set 1
        (uterm_drm_display_activate kernel_ok world_start video_two disp_idle).2.2) :=
  ⟨by simp [CrtcDistinct, video_two, disp_on5, disp_idle], by decide,
    (crtc_distinct_preserved kernel_ok world_start video_two 1 (by decide)
      (by simp [CrtcDistinct, video_two, disp_on5, disp_idle])).1⟩

/-! ## Setting DPMS -/

theorem set_dpms_loop_result (k : Kernel) (conn_id set : Nat) (ps : List (Nat × Nat)) :
    ∀ (ret : Int) (w : World),
      (set_dpms_loop k conn_id set ret w ps).2.1 = true ∨
      (set_dpms_loop k conn_id set ret w ps).1 = 0 ∨
      (set_dpms_loop k conn_id set ret w ps).1 = -EFAULT := by
  induction ps with
  | nil => intro ret w; left; rfl
  | cons p ps ih =>
    intro ret w
    unfold set_dpms_loop
    split
    · exact ih _ _
    · split
      · right
        simp only
        split
        · right; rfl
        · left; rename_i h; simpa using h
      · exact ih _ _

/-- The only results of `uterm_drm_set_dpms`: an error, UNKNOWN, or 0. -/
theorem set_dpms_result (k : Kernel) (w : World) (conn_id : Nat) (state : Int) :
    (uterm_drm_set_dpms k w conn_id state).1 = -EINVAL ∨
    (uterm_drm_set_dpms k w conn_id state).1 = -EFAULT ∨
    (uterm_drm_set_dpms k w conn_id state).1 = UTERM_DPMS_UNKNOWN ∨
    (uterm_drm_set_dpms k w conn_id state).1 = 0 := by
  unfold uterm_drm_set_dpms
  split
  · left; rfl
  · rename_i set _
    split
    · right; left; rfl
    · rename_i conn _
      simp only
      rcases set_dpms_loop_result k conn_id set conn.props state
        (drmModeGetConnector k w conn_id).2 with h | h | h
      · right; right; left; rw [if_pos h]
      · split
        · right; right; left; rfl
        · right; right; right; exact h
      · split
        · right; right; left; rfl
        · right; left; exact h

/-- Claim C3 fails on the code: with the connector fetched, a property named
"DPMS" found and the write answered 0, `uterm_drm_set_dpms` asked for OFF
returns 0, which is ON and not the requested state, and
`uterm_drm_display_set_dpms` returns 0 and records ON. -/
theorem set_dpms_off_yields_on :
    (uterm_drm_set_dpms kernel_ok world_start 21 UTERM_DPMS_OFF).2.calls =
      [Call.connectorSetProperty 21 7 DRM_MODE_DPMS_OFF, Call.getProperty 7,
        Call.getConnector 21] ∧
    (uterm_drm_set_dpms kernel_ok world_start 21 UTERM_DPMS_OFF).1 = UTERM_DPMS_ON ∧
    (uterm_drm_set_dpms kernel_ok world_start 21 UTERM_DPMS_OFF).1 ≠ UTERM_DPMS_OFF ∧
    (uterm_drm_display_set_dpms kernel_ok world_start disp_idle UTERM_DPMS_OFF).1 = 0 ∧
    (uterm_drm_display_set_dpms kernel_ok world_start disp_idle UTERM_DPMS_OFF).2.2.dpms =
      UTERM_DPMS_ON ∧
    (uterm_drm_display_set_dpms kernel_ok world_start disp_idle UTERM_DPMS_OFF).2.2.dpms ≠
      UTERM_DPMS_OFF := by
  decide

/-- Claim C5: for a state outside ON, STANDBY, SUSPEND, OFF,
`uterm_drm_set_dpms` returns -EINVAL and leaves the call history as it was (no
device call), and `uterm_drm_display_set_dpms` returns the same error with the
display, its recorded dpms included, unchanged. -/
theorem set_dpms_invalid_state (k : Kernel) (w : World) (conn_id : Nat) (disp : Display)
    (state : Int)
    (hs : state ≠ UTERM_DPMS_ON ∧ state ≠ UTERM_DPMS_STANDBY ∧ state ≠ UTERM_DPMS_SUSPEND ∧
      state ≠ UTERM_DPMS_OFF) :
    uterm_drm_set_dpms k w conn_id state = (-EINVAL, w) ∧
    uterm_drm_display_set_dpms k w disp state = (-EINVAL, w, disp) := by
  obtain ⟨h1, h2, h3, h4⟩ := hs
  have hv : dpms_set_value state = none := by simp [dpms_set_value, h1, h2, h3, h4]
  have hset : uterm_drm_set_dpms k w conn_id state = (-EINVAL, w) := by
    simp [uterm_drm_set_dpms, hv]
  refine ⟨hset, ?_⟩
  have hset2 : uterm_drm_set_dpms k w disp.conn_id state = (-EINVAL, w) := by
    simp [uterm_drm_set_dpms, hv]
  simp [uterm_drm_display_set_dpms, hset2, EINVAL]

/-- Witness for C5: the state UNKNOWN is rejected without a call. -/
theorem set_dpms_invalid_state_witness :
    (UTERM_DPMS_UNKNOWN ≠ UTERM_DPMS_ON ∧ UTERM_DPMS_UNKNOWN ≠ UTERM_DPMS_STANDBY ∧
      UTERM_DPMS_UNKNOWN ≠ UTERM_DPMS_SUSPEND ∧ UTERM_DPMS_UNKNOWN ≠ UTERM_DPMS_OFF) ∧
    uterm_drm_set_dpms kernel_ok world_start 21 UTERM_DPMS_UNKNOWN = (-EINVAL, world_start) ∧
    uterm_drm_display_set_dpms kernel_ok world_start disp_idle UTERM_DPMS_UNKNOWN =
      (-EINVAL, world_start, disp_idle) :=
  ⟨by decide, set_dpms_invalid_state kernel_ok world_start 21 disp_idle UTERM_DPMS_UNKNOWN
    (by decide)⟩

theorem set_dpms_loop_absent (k : Kernel) (conn_id set : Nat) (ps : List (Nat × Nat)) :
    ∀ (ret : Int) (w : World), no_dpms_fetched k w ps = true →
      (set_dpms_loop k conn_id set ret w ps).2.1 = true ∧
      (set_dpms_loop k conn_id set ret w ps).2.2.calls =
        (ps.map (fun p => Call.getProperty p.1)).reverse ++ w.calls ∧
      (set_dpms_loop k conn_id set ret w ps).2.2.master = w.master := by
  induction ps with
  | nil => intro ret w _; simp [set_dpms_loop]
  | cons p ps ih =>
    intro ret w hn
    unfold no_dpms_fetched at hn
    unfold set_dpms_loop
    split
    · rename_i hnone
      rw [hnone] at hn
      obtain ⟨h1, h2, h3⟩ := ih ret (drmModeGetProperty k w p.1).2 (by simpa using hn)
      refine ⟨h1, ?_, ?_⟩
      · rw [h2]; simp [drmModeGetProperty, World.log]
      · rw [h3]; simp [drmModeGetProperty, World.log]
    · rename_i prop hsome
      rw [hsome] at hn
      simp only [Bool.and_eq_true, Bool.not_eq_true', decide_eq_false_iff_not] at hn
      rw [if_neg hn.1]
      obtain ⟨h1, h2, h3⟩ := ih ret (drmModeGetProperty k w p.1).2 hn.2
      refine ⟨h1, ?_, ?_⟩
      · rw [h2]; simp [drmModeGetProperty, World.log]
      · rw [h3]; simp [drmModeGetProperty, World.log]

/-- Claim C6: for a valid requested state, when the connector fetch succeeds and
no fetched property is named "DPMS", `uterm_drm_set_dpms` returns UNKNOWN, a
non-negative value, having issued only the connector fetch and the property
fetches (no property write), and `uterm_drm_display_set_dpms` returns 0 with
the recorded dpms set to UNKNOWN. -/
theorem set_dpms_unsupported (k : Kernel) (w : World) (disp : Display) (state : Int)
    (conn : Connector)
    (hs : state = UTERM_DPMS_ON ∨ state = UTERM_DPMS_STANDBY ∨ state = UTERM_DPMS_SUSPEND ∨
      state = UTERM_DPMS_OFF)
    (hc : (drmModeGetConnector k w disp.conn_id).1 = some conn)
    (hn : no_dpms_fetched k (drmModeGetConnector k w disp.conn_id).2 conn.props = true) :
    (uterm_drm_set_dpms k w disp.conn_id state).1 = UTERM_DPMS_UNKNOWN ∧
    0 ≤ UTERM_DPMS_UNKNOWN ∧
    (uterm_drm_set_dpms k w disp.conn_id state).2.calls =
      (conn.props.map (fun p => Call.getProperty p.1)).reverse ++
        Call.getConnector disp.conn_id :: w.calls ∧
    uterm_drm_display_set_dpms k w disp state =
      (0, (uterm_drm_set_dpms k w disp.conn_id state).2,
        { disp with dpms := UTERM_DPMS_UNKNOWN }) := by
  have hv : ∃ set, dpms_set_value state = some set := by
    rcases hs with h | h | h | h <;> subst h <;> exact ⟨_, rfl⟩
  obtain ⟨set, hset⟩ := hv
  obtain ⟨h1, h2, _⟩ := set_dpms_loop_absent k disp.conn_id set conn.props state
    (drmModeGetConnector k w disp.conn_id).2 hn
  have hret : (uterm_drm_set_dpms k w disp.conn_id state).1 = UTERM_DPMS_UNKNOWN := by
    simp [uterm_drm_set_dpms, hset, hc, h1]
  have hcalls : (uterm_drm_set_dpms k w disp.conn_id state).2.calls =
      (conn.props.map (fun p => Call.getProperty p.1)).reverse ++
        Call.getConnector disp.conn_id :: w.calls := by
    simp only [uterm_drm_set_dpms, hset, hc]
    rw [h2]; simp [drmModeGetConnector, World.log]
  refine ⟨hret, by decide, hcalls, ?_⟩
  unfold uterm_drm_display_set_dpms
  simp only [hret]
  rw [if_neg (by decide)]

/-- Witness for C6: a connector whose only property is named "EDID". -/
theorem set_dpms_unsupported_witness :
    (drmModeGetConnector kernel_nodpms world_start disp_idle.conn_id).1 =
      some { connector_id := 21, connection := DRM_MODE_CONNECTED, encoders := [30],
             props := [(7, 0)], modes := [info_a] } ∧
    (uterm_drm_set_dpms kernel_nodpms world_start disp_idle.conn_id UTERM_DPMS_OFF).1 =
      UTERM_DPMS_UNKNOWN ∧
    (uterm_drm_display_set_dpms kernel_nodpms world_start disp_idle UTERM_DPMS_OFF).2.2.dpms =
      UTERM_DPMS_UNKNOWN :=
  ⟨by decide,
    (set_dpms_unsupported kernel_nodpms world_start disp_idle UTERM_DPMS_OFF
      { connector_id := 21, connection := DRM_MODE_CONNECTED, encoders := [30],
        props := [(7, 0)], modes := [info_a] }
      (by decide) (by decide) (by decide)).1,
    by decide⟩

/-! ## Deactivation -/

/-- Claim C10: `uterm_drm_display_deactivate` is idempotent.  After one call the
display has no snapshot and crtc id 0; a second call, in whatever world and
device state, returns the same display and leaves the call history untouched
(no device call). -/
theorem deactivate_idempotent (w w2 : World) (video video2 : Video) (disp : Display) :
    (uterm_drm_display_deactivate w video disp).2.saved_crtc = none ∧
    (uterm_drm_display_deactivate w video disp).2.crtc_id = 0 ∧
    uterm_drm_display_deactivate w2 video2 (uterm_drm_display_deactivate w video disp).2 =
      (w2, (uterm_drm_display_deactivate w video disp).2) := by
  unfold uterm_drm_display_deactivate
  cases disp.saved_crtc <;> simp

/-! ## Wake-up -/

theorem hotplug_error (k : Kernel) (w : World) (video : Video) (read_dpms : Bool)
    (h : (uterm_drm_video_hotplug k w video read_dpms).1 ≠ 0) :
    uterm_drm_video_hotplug k w video read_dpms =
      (-EACCES, (drmModeGetResources k w).2, video) := by
  unfold uterm_drm_video_hotplug at h ⊢
  split
  · rename_i hc; rw [if_pos hc] at h; exact absurd rfl h
  · rename_i hc
    rw [if_neg hc] at h
    split
    · rfl
    · rename_i res hres
      rw [hres] at h
      exact absurd rfl h

/-- Claim C4 as stated fails: on a sleeping device with a pending hotplug, when
mastership is granted and the resource fetch of the reconciliation fails,
`uterm_drm_video_wake_up` returns an error and mastership is dropped, but the
AWAKE flag, clear before the call, is set afterwards. -/
theorem wake_up_failure_leaves_awake :
    video_asleep.awake = false ∧
    (uterm_drm_video_wake_up kernel_nores world_start video_asleep).1 = -EACCES ∧
    (uterm_drm_video_wake_up kernel_nores world_start video_asleep).2.1.master = false ∧
    (uterm_drm_video_wake_up kernel_nores world_start video_asleep).2.2.awake = true := by
  decide

/-- Claim C4, amended: whenever `uterm_drm_video_wake_up` returns an error on a
device that was asleep and did not hold mastership, mastership is not held
afterwards and the display collection and HOTPLUG_PENDING are as before; if
mastership was refused the device is unchanged (AWAKE clear) and only the
mastership request was issued; if the reconciliation failed, the last call is
the release of mastership and AWAKE stays set, since this function never
clears it. -/
theorem wake_up_failure (k : Kernel) (w : World) (video : Video)
    (hasleep : video.awake = false) (hnomaster : w.master = false)
    (herr : (uterm_drm_video_wake_up k w video).1 ≠ 0) :
    (uterm_drm_video_wake_up k w video).2.1.master = false ∧
    (uterm_drm_video_wake_up k w video).2.2.displays = video.displays ∧
    (uterm_drm_video_wake_up k w video).2.2.hotplug = video.hotplug ∧
    (k.setMaster w.calls ≠ 0 →
      (uterm_drm_video_wake_up k w video).2.2 = video ∧
      (uterm_drm_video_wake_up k w video).2.2.awake = false ∧
      (uterm_drm_video_wake_up k w video).2.1.calls = Call.setMaster :: w.calls) ∧
    (k.setMaster w.calls = 0 →
      (uterm_drm_video_wake_up k w video).2.2 = { video with awake := true } ∧
      (uterm_drm_video_wake_up k w video).2.1.calls =
        [Call.dropMaster, Call.getResources, Call.setMaster] ++ w.calls) := by
  by_cases hm : k.setMaster w.calls = 0
  · have hm1 : (drmSetMaster k w).1 = 0 := hm
    have hw : uterm_drm_video_wake_up k w video =
        (let h := uterm_drm_video_hotplug k (drmSetMaster k w).2 { video with awake := true } true
         if h.1 ≠ 0 then (h.1, drmDropMaster h.2.1, h.2.2) else (0, h.2.1, h.2.2)) := by
      unfold uterm_drm_video_wake_up
      rw [if_neg (by simpa using hm1)]
    have hh : (uterm_drm_video_hotplug k (drmSetMaster k w).2
        { video with awake := true } true).1 ≠ 0 := by
      intro h0
      apply herr
      rw [hw]; simp [h0]
    have he := hotplug_error k _ _ _ hh
    have hfin : uterm_drm_video_wake_up k w video =
        (-EACCES, drmDropMaster (drmModeGetResources k (drmSetMaster k w).2).2,
          { video with awake := true }) := by
      rw [hw]; simp only [he]; rw [if_pos (by decide)]
    rw [hfin]
    refine ⟨rfl, rfl, rfl, fun h => absurd hm h, fun _ => ⟨rfl, ?_⟩⟩
    simp [drmDropMaster, drmModeGetResources, drmSetMaster, World.log]
  · have hm1 : (drmSetMaster k w).1 ≠ 0 := hm
    have hfin : uterm_drm_video_wake_up k w video = (-EACCES, (drmSetMaster k w).2, video) := by
      unfold uterm_drm_video_wake_up
      rw [if_pos hm1]
    rw [hfin]
    refine ⟨?_, rfl, rfl, fun _ => ⟨rfl, hasleep, rfl⟩, fun h => absurd h hm⟩
    simp [drmSetMaster, hnomaster, hm]

/-- Witness for C4: mastership granted, resource fetch failing. -/
theorem wake_up_failure_witness :
    video_asleep.awake = false ∧ world_start.master = false ∧
    (uterm_drm_video_wake_up kernel_nores world_start video_asleep).1 ≠ 0 ∧
    (uterm_drm_video_wake_up kernel_nores world_start video_asleep).2.1.master = false ∧
    (uterm_drm_video_wake_up kernel_nores world_start video_asleep).2.2.displays =
      video_asleep.displays :=
  ⟨by decide, by decide, by decide,
    (wake_up_failure kernel_nores world_start video_asleep (by decide) (by decide)
      (by decide)).1,
    (wake_up_failure kernel_nores world_start video_asleep (by decide) (by decide)
      (by decide)).2.1⟩

/-! ## Binding a display -/

theorem bind_modes_spec (k : Kernel) (infos : List ModeInfo) :
    ∀ (w : World) (disp : Display),
      ∃ new : List Mode,
        (bind_modes k w disp infos).2.modes = disp.modes ++ new ∧
        (new.map Mode.info).Sublist infos ∧
        (bind_modes k w disp infos).2.default_mode =
          (if disp.default_mode.isNone then new.head? else disp.default_mode) ∧
        (bind_modes k w disp infos).2.conn_id = disp.conn_id ∧
        (bind_modes k w disp infos).2.crtc_id = disp.crtc_id ∧
        (bind_modes k w disp infos).2.saved_crtc = disp.saved_crtc ∧
        (bind_modes k w disp infos).2.online = disp.online := by
  induction infos with
  | nil =>
    intro w disp
    refine ⟨[], ?_⟩
    cases hdm : disp.default_mode <;> simp [bind_modes, hdm]
  | cons info rest ih =>
    intro w disp
    unfold bind_modes
    split
    · obtain ⟨new, h1, h2, h3⟩ := ih (mode_new k w).2.1 disp
      exact ⟨new, h1, h2.cons _, h3⟩
    · simp only
      split
      · obtain ⟨new, h1, h2, h3⟩ := ih
          (uterm_mode_bind k (mode_new k w).2.1 (uterm_drm_mode_set (mode_new k w).2.2 info)
            disp).2.1 disp
        exact ⟨new, h1, h2.cons _, h3⟩
      · rename_i hb
        have hzero : k.mode_bind (mode_new k w).2.1.calls = 0 := by
          by_contra hne
          apply hb
          simp [uterm_mode_bind, hne]
        have hd : (uterm_mode_bind k (mode_new k w).2.1
            (uterm_drm_mode_set (mode_new k w).2.2 info) disp).2.2 =
            { disp with modes := disp.modes ++ [{ info := info }] } := by
          simp [uterm_mode_bind, hzero, uterm_drm_mode_set]
        rw [hd]
        cases hdm : disp.default_mode with
        | none =>
          obtain ⟨new, h1, h2, h3, h4⟩ := ih
            (uterm_mode_bind k (mode_new k w).2.1 (uterm_drm_mode_set (mode_new k w).2.2 info)
              disp).2.1
            { disp with modes := disp.modes ++ [{ info := info }],
                        default_mode := some (uterm_drm_mode_set (mode_new k w).2.2 info) }
          refine ⟨{ info := info } :: new, ?_, ?_, ?_, ?_⟩
          · simpa [hdm] using h1
          · simpa using h2.cons₂ info
          · simpa [hdm, uterm_drm_mode_set] using h3
          · simpa [hdm] using h4
        | some dm =>
          obtain ⟨new, h1, h2, h3, h4⟩ := ih
            (uterm_mode_bind k (mode_new k w).2.1 (uterm_drm_mode_set (mode_new k w).2.2 info)
              disp).2.1
            { disp with modes := disp.modes ++ [{ info := info }] }
          refine ⟨{ info := info } :: new, ?_, ?_, ?_, ?_⟩
          · simpa [hdm] using h1
          · simpa using h2.cons₂ info
          · simpa [hdm] using h3
          · simpa [hdm] using h4

theorem bind_built_spec (k : Kernel) (w : World) (conn : Connector) :
    ((bind_built k w conn).2.modes.map Mode.info).Sublist conn.modes ∧
    (bind_built k w conn).2.default_mode = (bind_built k w conn).2.modes.head? ∧
    (bind_built k w conn).2.crtc_id = 0 ∧
    (bind_built k w conn).2.saved_crtc = none ∧
    (bind_built k w conn).2.online = false := by
  obtain ⟨new, h1, h2, h3, _, h5, h6, h7⟩ :=
    bind_modes_spec k conn.modes (display_new k w).2.1 (display_new k w).2.2
  have hm : (bind_built k w conn).2.modes = new := by
    simpa [bind_built, display_new] using h1
  refine ⟨by rw [hm]; exact h2, ?_, ?_, ?_, ?_⟩
  · rw [hm]; simpa [bind_built, display_new] using h3
  · simpa [bind_built, display_new] using h5
  · simpa [bind_built, display_new] using h6
  · simpa [bind_built, display_new] using h7

/-- The display that `bind_display` registers when it succeeds. -/
theorem bind_display_eq (k : Kernel) (w : World) (video : Video) (res : Res)
    (conn : Connector) :
    (bind_display k w video res conn).2 =
      if bind_succeeds k w conn = true then
        { video with displays := video.displays ++
            [{ (bind_built k w conn).2 with
                conn_id := conn.connector_id, available := true,
                dpms := (uterm_drm_get_dpms k (bind_built k w conn).1 conn).1 }] }
      else video := by
  unfold bind_display bind_succeeds bind_register_world bind_built
  by_cases h1 : k.display_new w.calls = 0
  · have h1b : (display_new k w).1 = 0 := h1
    simp only [h1b, ne_eq, not_true_eq_false, if_false, h1, decide_True, Bool.true_and]
    cases hm : (bind_modes k (display_new k w).2.1 (display_new k w).2.2 conn.modes).2.modes.isEmpty
    · simp only [Bool.false_eq_true, if_false, Bool.not_false, Bool.true_and]
      by_cases h3 : k.display_bind (uterm_drm_get_dpms k
          (bind_modes k (display_new k w).2.1 (display_new k w).2.2 conn.modes).1 conn).2.calls = 0
      · simp [uterm_display_bind, h3]
      · simp [uterm_display_bind, h3]
    · simp
  · have h1b : (display_new k w).1 ≠ 0 := h1
    simp [h1b, h1]

/-! ## Hotplug reconciliation -/

theorem Frame.rfl_ (d : Display) : Frame d d := ⟨rfl, rfl, rfl, rfl, rfl, rfl⟩

theorem Frame.trans_ {a b c : Display} (hab : Frame a b) (hbc : Frame b c) : Frame a c := by
  unfold Frame at *
  refine ⟨?_, ?_, ?_, ?_, ?_, ?_⟩
  · rw [hbc.1, hab.1]
  · rw [hbc.2.1, hab.2.1]
  · rw [hbc.2.2.1, hab.2.2.1]
  · rw [hbc.2.2.2.1, hab.2.2.2.1]
  · rw [hbc.2.2.2.2.1, hab.2.2.2.2.1]
  · rw [hbc.2.2.2.2.2, hab.2.2.2.2.2]

theorem display_set_dpms_frame (k : Kernel) (w : World) (disp : Display) (state : Int) :
    Frame disp (uterm_drm_display_set_dpms k w disp state).2.2 ∧
    (uterm_drm_display_set_dpms k w disp state).2.2.available = disp.available := by
  unfold uterm_drm_display_set_dpms
  simp only
  split
  · exact ⟨Frame.rfl_ _, rfl⟩
  · exact ⟨⟨rfl, rfl, rfl, rfl, rfl, rfl⟩, rfl⟩

theorem hotplug_refresh_frame (k : Kernel) (read_dpms : Bool) (w : World) (conn : Connector)
    (disp : Display) :
    Frame disp (hotplug_refresh k read_dpms w conn disp).2 ∧
    (hotplug_refresh k read_dpms w conn disp).2.available = true := by
  unfold hotplug_refresh
  split
  · exact ⟨⟨rfl, rfl, rfl, rfl, rfl, rfl⟩, rfl⟩
  · simp only
    split
    · obtain ⟨h1, h2⟩ := display_set_dpms_frame k (uterm_drm_get_dpms k w conn).2
        { disp with available := true } disp.dpms
      exact ⟨Frame.trans_ ⟨rfl, rfl, rfl, rfl, rfl, rfl⟩ h1, h2⟩
    · exact ⟨⟨rfl, rfl, rfl, rfl, rfl, rfl⟩, rfl⟩

theorem hotplug_find_none (k : Kernel) (read_dpms : Bool) (id : Nat) (conn : Connector)
    (w : World) (ds : List Display) :
    hotplug_find k read_dpms id conn w ds = none ↔ ∀ d ∈ ds, d.conn_id ≠ id := by
  induction ds with
  | nil => simp [hotplug_find]
  | cons d ds ih =>
    unfold hotplug_find
    by_cases h : d.conn_id = id
    · simp [h]
    · simp only [ne_eq, h, not_false_eq_true, if_true, List.mem_cons, forall_eq_or_imp, true_and]
      rw [← ih]
      cases hotplug_find k read_dpms id conn w ds <;> simp

theorem hotplug_find_some (k : Kernel) (read_dpms : Bool) (id : Nat) (conn : Connector)
    (w : World) (ds : List Display) :
    ∀ r, hotplug_find k read_dpms id conn w ds = some r →
      (∀ e ∈ r.2, e ∈ ds ∨ ∃ d ∈ ds, d.conn_id = id ∧ Frame d e ∧ e.available = true) ∧
      (∀ d ∈ ds, d ∈ r.2 ∨ (d.conn_id = id ∧ ∃ e ∈ r.2, Frame d e ∧ e.available = true)) ∧
      (∃ e ∈ r.2, e.conn_id = id ∧ e.available = true) ∧
      r.2.map Display.conn_id = ds.map Display.conn_id := by
  induction ds with
  | nil => intro r h; simp [hotplug_find] at h
  | cons d ds ih =>
    intro r h
    unfold hotplug_find at h
    by_cases hd : d.conn_id = id
    · simp only [ne_eq, hd, not_true_eq_false, if_false, Option.some.injEq] at h
      subst h
      obtain ⟨hf, ha⟩ := hotplug_refresh_frame k read_dpms w conn d
      refine ⟨?_, ?_, ?_, ?_⟩
      · intro e he
        simp only [List.mem_cons] at he
        rcases he with he | he
        · right; exact ⟨d, List.mem_cons_self _ _, hd, he ▸ hf, he ▸ ha⟩
        · left; exact List.mem_cons_of_mem _ he
      · intro x hx
        simp only [List.mem_cons] at hx
        rcases hx with hx | hx
        · right; subst hx
          exact ⟨hd, _, List.mem_cons_self _ _, hf, ha⟩
        · left; exact List.mem_cons_of_mem _ hx
      · exact ⟨_, List.mem_cons_self _ _, hf.1.trans hd, ha⟩
      · simp [hf.1]
    · simp only [ne_eq, hd, not_false_eq_true, if_true] at h
      cases hrec : hotplug_find k read_dpms id conn w ds with
      | none => rw [hrec] at h; simp at h
      | some r0 =>
        rw [hrec] at h
        simp only [Option.some.injEq] at h
        subst h
        obtain ⟨h1, h2, h3, h4⟩ := ih r0 hrec
        refine ⟨?_, ?_, ?_, ?_⟩
        · intro e he
          simp only [List.mem_cons] at he
          rcases he with he | he
          · left; subst he; exact List.mem_cons_self _ _
          · rcases h1 e he with h | ⟨x, hx, hx2⟩
            · left; exact List.mem_cons_of_mem _ h
            · right; exact ⟨x, List.mem_cons_of_mem _ hx, hx2⟩
        · intro x hx
          simp only [List.mem_cons] at hx
          rcases hx with hx | hx
          · left; subst hx; exact List.mem_cons_self _ _
          · rcases h2 x hx with h | ⟨hc, e, he, he2⟩
            · left; exact List.mem_cons_of_mem _ h
            · right; exact ⟨hc, e, List.mem_cons_of_mem _ he, he2⟩
        · obtain ⟨e, he, he2⟩ := h3
          exact ⟨e, List.mem_cons_of_mem _ he, he2⟩
        · simp [h4]

theorem hotplug_unbind_eq (ds : List Display) :
    hotplug_unbind ds = ds.filter (fun d => d.available) := by
  induction ds with
  | nil => rfl
  | cons d ds ih =>
    unfold hotplug_unbind
    cases h : d.available <;> simp [h, ih]

theorem hotplug_connector_idle (k : Kernel) (read_dpms : Bool) (res : Res) (s : World × Video)
    (id : Nat) (h : reported_connected k s.1 id = false) :
    (hotplug_connector k read_dpms res s id).2 = s.2 := by
  unfold reported_connected at h
  unfold hotplug_connector
  split
  · rfl
  · rename_i conn hc
    rw [hc] at h
    simp only [decide_eq_false_iff_not] at h
    rw [if_pos h]

theorem hotplug_connector_live (k : Kernel) (read_dpms : Bool) (res : Res) (s : World × Video)
    (id : Nat) (h : reported_connected k s.1 id = true) :
    ∃ conn, (drmModeGetConnector k s.1 id).1 = some conn ∧
      conn.connection = DRM_MODE_CONNECTED ∧ conn.connector_id = id ∧
      hotplug_connector k read_dpms res s id =
        match hotplug_find k read_dpms id conn (drmModeGetConnector k s.1 id).2 s.2.displays with
        | some f => (f.1, { s.2 with displays := f.2 })
        | none => bind_display k (drmModeGetConnector k s.1 id).2 s.2 res conn := by
  unfold reported_connected at h
  cases hc : (drmModeGetConnector k s.1 id).1 with
  | none => rw [hc] at h; simp at h
  | some conn =>
    rw [hc] at h
    simp only [decide_eq_true_eq] at h
    refine ⟨conn, rfl, h, ?_, ?_⟩
    · unfold drmModeGetConnector at hc
      simp only [Option.map_eq_some'] at hc
      obtain ⟨c, _, hc2⟩ := hc
      rw [← hc2]
    · unfold hotplug_connector
      simp only [hc, h, ne_eq, not_true_eq_false, if_false]

theorem bind_modes_all (k : Kernel) (hn : ∀ h, k.mode_new h = 0) (hb : ∀ h, k.mode_bind h = 0)
    (infos : List ModeInfo) :
    ∀ (w : World) (disp : Display),
      (bind_modes k w disp infos).2.modes = disp.modes ++ infos.map Mode.mk := by
  induction infos with
  | nil => intro w disp; simp [bind_modes]
  | cons info rest ih =>
    intro w disp
    unfold bind_modes
    have h1 : (mode_new k w).1 = 0 := hn _
    simp only [h1, ne_eq, not_true_eq_false, if_false]
    have h2 : ∀ m, uterm_mode_bind k (mode_new k w).2.1 m disp =
        (0, (mode_new k w).2.1.log Call.mode_bind, { disp with modes := disp.modes ++ [m] }) := by
      intro m; simp [uterm_mode_bind, hb]
    simp only [h2, not_true_eq_false, if_false]
    rw [ih]
    cases hdm : disp.default_mode <;> simp [uterm_drm_mode_set]

theorem bind_succeeds_of_noFail (k : Kernel) (hk : NoFail k) (w : World) (conn : Connector)
    (hm : conn.modes ≠ []) : bind_succeeds k w conn = true := by
  obtain ⟨h1, h2, h3, h4, _⟩ := hk
  have hmodes : (bind_built k w conn).2.modes = conn.modes.map Mode.mk := by
    unfold bind_built
    rw [bind_modes_all k h2 h3]
    simp [display_new]
  unfold bind_succeeds
  rw [hmodes]
  cases hc : conn.modes with
  | nil => exact absurd hc hm
  | cons a l => simp [h1, h4]

theorem bind_display_fresh (k : Kernel) (w : World) (video : Video) (res : Res)
    (conn : Connector) :
    (bind_display k w video res conn).2 = video ∨
    ∃ e, Fresh conn.connector_id e ∧
      (bind_display k w video res conn).2 =
        { video with displays := video.displays ++ [e] } := by
  rw [bind_display_eq]
  cases hs : bind_succeeds k w conn with
  | false => left; simp
  | true =>
    right
    obtain ⟨_, _, h3, h4, _⟩ := bind_built_spec k w conn
    refine ⟨{ (bind_built k w conn).2 with
        conn_id := conn.connector_id, available := true,
        dpms := (uterm_drm_get_dpms k (bind_built k w conn).1 conn).1 },
      ⟨rfl, rfl, ?_, h3, h4⟩, by simp⟩
    unfold bind_succeeds at hs
    simp only [Bool.and_eq_true, Bool.not_eq_true', decide_eq_true_eq] at hs
    intro he
    have : (bind_built k w conn).2.modes.isEmpty = true := by
      simpa using he
    rw [this] at hs
    exact absurd hs.1.2 (by simp)

/-- One iteration of the connector loop, seen from the display collection. -/
theorem hotplug_connector_step (k : Kernel) (read_dpms : Bool) (res : Res)
    (s : World × Video) (id : Nat) :
    (∀ e ∈ (hotplug_connector k read_dpms res s id).2.displays,
      e ∈ s.2.displays ∨
      (reported_connected k s.1 id = true ∧
        ((∃ d ∈ s.2.displays, d.conn_id = id ∧ Frame d e ∧ e.available = true) ∨
          (Fresh id e ∧ ∀ d ∈ s.2.displays, d.conn_id ≠ id)))) ∧
    (∀ d ∈ s.2.displays,
      d ∈ (hotplug_connector k read_dpms res s id).2.displays ∨
      (d.conn_id = id ∧ ∃ e ∈ (hotplug_connector k read_dpms res s id).2.displays,
        Frame d e ∧ e.available = true)) ∧
    (reported_connected k s.1 id = true → (∃ d ∈ s.2.displays, d.conn_id = id) →
      ∃ e ∈ (hotplug_connector k read_dpms res s id).2.displays,
        e.conn_id = id ∧ e.available = true) ∧
    (reported_connected k s.1 id = true → NoFail k →
      ∃ e ∈ (hotplug_connector k read_dpms res s id).2.displays,
        e.conn_id = id ∧ e.available = true) ∧
    ((s.2.displays.map Display.conn_id).Nodup →
      ((hotplug_connector k read_dpms res s id).2.displays.map Display.conn_id).Nodup) := by
  cases hr : reported_connected k s.1 id with
  | false =>
    rw [hotplug_connector_idle k read_dpms res s id hr]
    exact ⟨fun e he => Or.inl he, fun d hd => Or.inl hd, fun h => absurd h (by simp),
      fun h => absurd h (by simp), fun h => h⟩
  | true =>
    obtain ⟨conn, hc, hconn, hcid, heq⟩ := hotplug_connector_live k read_dpms res s id hr
    rw [heq]
    cases hf : hotplug_find k read_dpms id conn (drmModeGetConnector k s.1 id).2 s.2.displays with
    | some f =>
      obtain ⟨h1, h2, h3, h4⟩ := hotplug_find_some k read_dpms id conn _ _ f hf
      refine ⟨?_, h2, fun _ _ => h3, fun _ _ => h3, ?_⟩
      · intro e he
        rcases h1 e he with h | h
        · left; exact h
        · right; exact ⟨rfl, Or.inl h⟩
      · intro hnd
        show (f.2.map Display.conn_id).Nodup
        rw [h4]; exact hnd
    | none =>
      have hnone := (hotplug_find_none k read_dpms id conn _ _).1 hf
      simp only
      rcases bind_display_fresh k (drmModeGetConnector k s.1 id).2 s.2 res conn with hb | hb
      · have hnf : NoFail k → False := by
          intro hk
          have hmodes : conn.modes ≠ [] := by
            unfold drmModeGetConnector at hc
            simp only [Option.map_eq_some'] at hc
            obtain ⟨c, hc1, hc2⟩ := hc
            have := hk.2.2.2.2 _ _ c hc1 (by rw [← hc2] at hconn; exact hconn)
            rw [← hc2]; exact this
          have hs := bind_succeeds_of_noFail k hk (drmModeGetConnector k s.1 id).2 conn hmodes
          have := bind_display_eq k (drmModeGetConnector k s.1 id).2 s.2 res conn
          rw [hs, if_pos rfl, hb] at this
          have hlen := congrArg (fun v => v.displays.length) this
          simp at hlen
        rw [hb]
        refine ⟨fun e he => Or.inl he, fun d hd => Or.inl hd, ?_, fun _ hk => (hnf hk).elim,
          fun h => h⟩
        intro _ ⟨d, hd, hd2⟩
        exact absurd hd2 (hnone d hd)
      · obtain ⟨e, hfresh, hb⟩ := hb
        rw [hb]
        rw [hcid] at hfresh
        refine ⟨?_, ?_, ?_, ?_, ?_⟩
        · intro x hx
          simp only [List.mem_append, List.mem_singleton] at hx
          rcases hx with hx | hx
          · left; exact hx
          · right; subst hx; exact ⟨trivial, Or.inr ⟨hfresh, hnone⟩⟩
        · intro d hd
          left
          simp only [List.mem_append, List.mem_singleton]
          exact Or.inl hd
        · intro _ _
          exact ⟨e, by simp, hfresh.1, hfresh.2.1⟩
        · intro _ _
          exact ⟨e, by simp, hfresh.1, hfresh.2.1⟩
        · intro hnd
          simp only [List.map_append, List.map_cons, List.map_nil]
          rw [List.nodup_append]
          refine ⟨hnd, List.nodup_singleton _, ?_⟩
          intro a ha hb2
          simp only [List.mem_singleton] at hb2
          simp only [List.mem_map] at ha
          obtain ⟨d, hd, hd2⟩ := ha
          exact hnone d hd (by rw [hd2, hb2, hfresh.1])

theorem scanInv_step (k : Kernel) (read_dpms : Bool) (res : Res) (s : World × Video)
    (id : Nat) (known : List Display) (seen : List Nat)
    (h : ScanInv known seen s.2.displays) :
    ScanInv known (seen ++ (if reported_connected k s.1 id then [id] else []))
      (hotplug_connector k read_dpms res s id).2.displays := by
  obtain ⟨i1, i2, i3, i4⟩ := h
  obtain ⟨a, b, c, _, _⟩ := hotplug_connector_step k read_dpms res s id
  refine ⟨?_, ?_, ?_, ?_⟩
  · intro e he hav
    rcases a e he with h | ⟨hc, h | h⟩
    · exact List.mem_append_left _ (i1 e h hav)
    · obtain ⟨d, _, hd, hf, _⟩ := h
      rw [hc, hf.1, hd]; simp
    · rw [hc, h.1.1]; simp
  · intro x hx ⟨e, he, hex⟩
    rcases a e he with h | ⟨hc, h | h⟩
    · rcases List.mem_append.1 hx with hx | hx
      · obtain ⟨d, hd, hd1, hd2⟩ := i2 x hx ⟨e, h, hex⟩
        rcases b d hd with hb | ⟨_, e2, he2, hf, hav⟩
        · exact ⟨d, hb, hd1, hd2⟩
        · exact ⟨e2, he2, hf.1.trans hd1, hav⟩
      · cases hr : reported_connected k s.1 id with
        | false => rw [hr] at hx; simp at hx
        | true =>
          rw [hr] at hx
          simp only [if_true, List.mem_singleton] at hx
          subst hx
          exact c hr ⟨e, h, hex⟩
    · obtain ⟨d, _, _, _, hav⟩ := h
      exact ⟨e, he, hex, hav⟩
    · exact ⟨e, he, hex, h.1.2.1⟩
  · intro d0 hd0
    obtain ⟨d, hd, hf⟩ := i3 d0 hd0
    rcases b d hd with hb | ⟨_, e, he, hf2, _⟩
    · exact ⟨d, hb, hf⟩
    · exact ⟨e, he, Frame.trans_ hf hf2⟩
  · intro e he
    rcases a e he with h | ⟨_, h | h⟩
    · exact i4 e h
    · obtain ⟨d, hd, _, hf, hav⟩ := h
      rcases i4 d hd with ⟨d0, hd0, hf0⟩ | ⟨hfr, hnot⟩
      · left; exact ⟨d0, hd0, Frame.trans_ hf0 hf⟩
      · right
        obtain ⟨f1, f2, f3, f4, _, _⟩ := hf
        obtain ⟨_, _, g3, g4, g5⟩ := hfr
        refine ⟨⟨rfl, hav, by rw [f4]; exact g3, by rw [f2]; exact g4, by rw [f3]; exact g5⟩, ?_⟩
        intro d0 hd0
        rw [f1]; exact hnot d0 hd0
    · right
      obtain ⟨hfr, hnone⟩ := h
      refine ⟨by rw [hfr.1]; exact hfr, ?_⟩
      intro d0 hd0
      obtain ⟨d, hd, hf⟩ := i3 d0 hd0
      rw [hfr.1, ← hf.1]
      exact hnone d hd

theorem scanInv_scan (k : Kernel) (read_dpms : Bool) (res : Res) (known : List Display)
    (ids : List Nat) :
    ∀ (s : World × Video) (seen : List Nat), ScanInv known seen s.2.displays →
      ScanInv known (seen ++ scan_connected k read_dpms res s ids)
        (hotplug_scan k read_dpms res s ids).2.displays := by
  induction ids with
  | nil => intro s seen h; simpa [scan_connected, hotplug_scan] using h
  | cons id ids ih =>
    intro s seen h
    have h2 := ih _ _ (scanInv_step k read_dpms res s id known seen h)
    unfold scan_connected hotplug_scan
    rw [← List.append_assoc]
    exact h2

theorem nodup_scan (k : Kernel) (read_dpms : Bool) (res : Res) (ids : List Nat) :
    ∀ (s : World × Video), (s.2.displays.map Display.conn_id).Nodup →
      ((hotplug_scan k read_dpms res s ids).2.displays.map Display.conn_id).Nodup := by
  induction ids with
  | nil => intro s h; simpa [hotplug_scan] using h
  | cons id ids ih =>
    intro s h
    unfold hotplug_scan
    exact ih _ ((hotplug_connector_step k read_dpms res s id).2.2.2.2 h)

theorem all_bound_scan (k : Kernel) (hk : NoFail k) (read_dpms : Bool) (res : Res)
    (ids : List Nat) :
    ∀ (s : World × Video) (seen : List Nat),
      (∀ id ∈ seen, ∃ d ∈ s.2.displays, d.conn_id = id) →
      ∀ id ∈ seen ++ scan_connected k read_dpms res s ids,
        ∃ d ∈ (hotplug_scan k read_dpms res s ids).2.displays, d.conn_id = id := by
  induction ids with
  | nil => intro s seen h; simpa [scan_connected, hotplug_scan] using h
  | cons id ids ih =>
    intro s seen h
    unfold scan_connected hotplug_scan
    rw [← List.append_assoc]
    apply ih
    intro x hx
    obtain ⟨_, b, _, c2, _⟩ := hotplug_connector_step k read_dpms res s id
    rcases List.mem_append.1 hx with hx | hx
    · obtain ⟨d, hd, hd1⟩ := h x hx
      rcases b d hd with hb | ⟨_, e, he, hf, _⟩
      · exact ⟨d, hb, hd1⟩
      · exact ⟨e, he, hf.1.trans hd1⟩
    · cases hr : reported_connected k s.1 id with
      | false => rw [hr] at hx; simp at hx
      | true =>
        rw [hr] at hx
        simp only [if_true, List.mem_singleton] at hx
        subst hx
        obtain ⟨e, he, he1, _⟩ := c2 hr hk
        exact ⟨e, he, he1⟩

/-- The invariant holds when the connector loop starts: no connector seen yet,
every known display with AVAILABLE cleared. -/
theorem scanInv_start (known : List Display) :
    ScanInv known [] (known.map (fun d => { d with available := false })) := by
  refine ⟨?_, ?_, ?_, ?_⟩
  · intro d hd hav
    simp only [List.mem_map] at hd
    obtain ⟨d0, _, rfl⟩ := hd
    simp at hav
  · intro id hid; simp at hid
  · intro d0 hd0
    exact ⟨{ d0 with available := false }, List.mem_map.2 ⟨d0, hd0, rfl⟩,
      ⟨rfl, rfl, rfl, rfl, rfl, rfl⟩⟩
  · intro d hd
    simp only [List.mem_map] at hd
    obtain ⟨d0, hd0, rfl⟩ := hd
    left; exact ⟨d0, hd0, ⟨rfl, rfl, rfl, rfl, rfl, rfl⟩⟩

theorem hotplug_success (k : Kernel) (w : World) (video : Video) (read_dpms : Bool) (res : Res)
    (hawake : video.awake = true) (hpending : video.hotplug = true)
    (hres : (drmModeGetResources k w).1 = some res) :
    uterm_drm_video_hotplug k w video read_dpms =
      (0, (hotplug_scan k read_dpms res (scan_start k w video) res.connectors).1,
        { (hotplug_scan k read_dpms res (scan_start k w video) res.connectors).2 with
          displays := hotplug_unbind
            (hotplug_scan k read_dpms res (scan_start k w video) res.connectors).2.displays,
          hotplug := false }) := by
  unfold uterm_drm_video_hotplug
  have hc : ¬ ((!video_is_awake video || !video_need_hotplug video) = true) := by
    simp [video_is_awake, video_need_hotplug, hawake, hpending]
  rw [if_neg hc]
  split
  · rename_i h; rw [hres] at h; exact absurd h (by simp)
  · rename_i r h
    rw [hres] at h
    cases h
    rfl

theorem hotplug_displays (k : Kernel) (w : World) (video : Video) (read_dpms : Bool) (res : Res)
    (hawake : video.awake = true) (hpending : video.hotplug = true)
    (hres : (drmModeGetResources k w).1 = some res) :
    (uterm_drm_video_hotplug k w video read_dpms).1 = 0 ∧
    (uterm_drm_video_hotplug k w video read_dpms).2.2.hotplug = false ∧
    (uterm_drm_video_hotplug k w video read_dpms).2.2.displays =
      (hotplug_scan k read_dpms res (scan_start k w video) res.connectors).2.displays.filter
        (fun d => d.available) ∧
    ScanInv video.displays (hotplug_connected k w video read_dpms res)
      (hotplug_scan k read_dpms res (scan_start k w video) res.connectors).2.displays := by
  rw [hotplug_success k w video read_dpms res hawake hpending hres]
  refine ⟨rfl, rfl, hotplug_unbind_eq _, ?_⟩
  have h := scanInv_scan k read_dpms res video.displays res.connectors (scan_start k w video) []
    (scanInv_start video.displays)
  simpa [hotplug_connected] using h

theorem noFail_kernel_ok : NoFail kernel_ok := by
  refine ⟨fun _ => rfl, fun _ => rfl, fun _ => rfl, fun _ => rfl, ?_⟩
  intro h id conn hc _
  simp only [kernel_ok, Option.some.injEq] at hc
  rw [← hc]; simp

/-- Claim C7 as stated fails: after a successful reconciliation of an awake
device with a pending hotplug, the kernel has reported the connectors 20 and 21
as connected, yet no display is bound, because the connectors report no mode
and `bind_display` discards a display to which no mode attached. -/
theorem hotplug_connected_without_display :
    video_pending.awake = true ∧ video_pending.hotplug = true ∧
    (uterm_drm_video_hotplug kernel_nomodes world_start video_pending true).1 = 0 ∧
    hotplug_connected kernel_nomodes world_start video_pending true res_ok = [20, 21] ∧
    (uterm_drm_video_hotplug kernel_nomodes world_start video_pending true).2.2.displays = [] := by
  decide

/-- One iteration of the connector loop, by whether it binds a new display. -/
theorem hotplug_connector_bound (k : Kernel) (read_dpms : Bool) (res : Res)
    (s : World × Video) (id : Nat) :
    (bound_now k s id = true →
      (∀ d ∈ s.2.displays, d.conn_id ≠ id) ∧
      ∃ e, Fresh id e ∧
        (hotplug_connector k read_dpms res s id).2.displays = s.2.displays ++ [e]) ∧
    (bound_now k s id = false →
      ∀ e ∈ (hotplug_connector k read_dpms res s id).2.displays,
        e ∈ s.2.displays ∨ ∃ d ∈ s.2.displays, d.conn_id = id ∧ Frame d e) := by
  constructor
  · intro hb
    unfold bound_now at hb
    cases hc : (drmModeGetConnector k s.1 id).1 with
    | none => rw [hc] at hb; simp at hb
    | some conn =>
      rw [hc] at hb
      simp only [Bool.and_eq_true, decide_eq_true_eq, Bool.not_eq_true', List.any_eq_false,
        decide_eq_false_iff_not] at hb
      obtain ⟨⟨hconn, hnone⟩, hs⟩ := hb
      have hr : reported_connected k s.1 id = true := by
        unfold reported_connected; rw [hc]; simpa using hconn
      obtain ⟨conn2, hc2, _, hcid, heq⟩ := hotplug_connector_live k read_dpms res s id hr
      have hsame : conn2 = conn := by
        rw [hc] at hc2; exact (Option.some.inj hc2).symm
      subst hsame
      have hf := (hotplug_find_none k read_dpms id conn2 (drmModeGetConnector k s.1 id).2
        s.2.displays).2 hnone
      refine ⟨hnone, ?_⟩
      rw [heq, hf]
      simp only
      rw [bind_display_eq, if_pos hs]
      obtain ⟨_, _, h3, h4, _⟩ := bind_built_spec k (drmModeGetConnector k s.1 id).2 conn2
      refine ⟨{ (bind_built k (drmModeGetConnector k s.1 id).2 conn2).2 with
          conn_id := conn2.connector_id, available := true,
          dpms := (uterm_drm_get_dpms k
            (bind_built k (drmModeGetConnector k s.1 id).2 conn2).1 conn2).1 },
        ⟨hcid, rfl, ?_, h3, h4⟩, rfl⟩
      intro he
      unfold bind_succeeds at hs
      have hemp : (bind_built k (drmModeGetConnector k s.1 id).2 conn2).2.modes.isEmpty = true := by
        simpa using he
      rw [hemp] at hs
      simp at hs
  · intro hb e he
    cases hr : reported_connected k s.1 id with
    | false =>
      rw [hotplug_connector_idle k read_dpms res s id hr] at he
      exact Or.inl he
    | true =>
      obtain ⟨conn, hc, hconn, _, heq⟩ := hotplug_connector_live k read_dpms res s id hr
      rw [heq] at he
      cases hf : hotplug_find k read_dpms id conn (drmModeGetConnector k s.1 id).2
          s.2.displays with
      | some f =>
        rw [hf] at he
        obtain ⟨h1, _, _, _⟩ := hotplug_find_some k read_dpms id conn _ _ f hf
        rcases h1 e he with h | ⟨d, hd, hd1, hd2, _⟩
        · exact Or.inl h
        · exact Or.inr ⟨d, hd, hd1, hd2⟩
      | none =>
        rw [hf] at he
        have hnone := (hotplug_find_none k read_dpms id conn _ _).1 hf
        have hs : bind_succeeds k (drmModeGetConnector k s.1 id).2 conn = false := by
          cases hs : bind_succeeds k (drmModeGetConnector k s.1 id).2 conn with
          | false => rfl
          | true =>
            unfold bound_now at hb
            rw [hc] at hb
            have hany : (s.2.displays.any (fun d => decide (d.conn_id = id))) = false := by
              simpa using hnone
            simp [hconn, hany, hs] at hb
        simp only at he
        rw [bind_display_eq, hs] at he
        exact Or.inl (by simpa using he)

/-- The displays of the scan sit on connectors of known displays or on
connectors for which the scan bound a display; the latter stay available. -/
theorem scan_bound_invariant (k : Kernel) (read_dpms : Bool) (res : Res)
    (known : List Display) (ids : List Nat) :
    ∀ (s : World × Video) (seen bound : List Nat), ScanInv known seen s.2.displays →
      (∀ d ∈ s.2.displays, (∃ d0 ∈ known, d0.conn_id = d.conn_id) ∨ d.conn_id ∈ bound) →
      (∀ id ∈ bound, (∀ d0 ∈ known, d0.conn_id ≠ id) ∧
        ∃ d ∈ s.2.displays, d.conn_id = id ∧ d.available = true) →
      (∀ d ∈ (hotplug_scan k read_dpms res s ids).2.displays,
        (∃ d0 ∈ known, d0.conn_id = d.conn_id) ∨
          d.conn_id ∈ bound ++ scan_bound k read_dpms res s ids) ∧
      (∀ id ∈ bound ++ scan_bound k read_dpms res s ids, (∀ d0 ∈ known, d0.conn_id ≠ id) ∧
        ∃ d ∈ (hotplug_scan k read_dpms res s ids).2.displays,
          d.conn_id = id ∧ d.available = true) := by
  induction ids with
  | nil => intro s seen bound _ h1 h2; simpa [scan_bound, hotplug_scan] using ⟨h1, h2⟩
  | cons id ids ih =>
    intro s seen bound hinv h1 h2
    unfold scan_bound hotplug_scan
    rw [← List.append_assoc]
    refine ih _ _ _ (scanInv_step k read_dpms res s id known seen hinv) ?_ ?_
    · intro e he
      obtain ⟨hyes, hno⟩ := hotplug_connector_bound k read_dpms res s id
      cases hb : bound_now k s id with
      | true =>
        obtain ⟨_, e0, hfresh, heq⟩ := hyes hb
        rw [heq] at he
        simp only [List.mem_append, List.mem_singleton] at he
        rcases he with he | he
        · rcases h1 e he with h | h
          · exact Or.inl h
          · exact Or.inr (List.mem_append_left _ h)
        · right; rw [he, hfresh.1]; simp
      | false =>
        rcases hno hb e he with he | ⟨d, hd, _, hf⟩
        · rcases h1 e he with h | h
          · exact Or.inl h
          · exact Or.inr (List.mem_append_left _ h)
        · rw [hf.1]
          rcases h1 d hd with h | h
          · exact Or.inl h
          · exact Or.inr (List.mem_append_left _ h)
    · intro x hx
      obtain ⟨_, b, _, _, _⟩ := hotplug_connector_step k read_dpms res s id
      rcases List.mem_append.1 hx with hx | hx
      · obtain ⟨hk, d, hd, hd1, hd2⟩ := h2 x hx
        refine ⟨hk, ?_⟩
        rcases b d hd with hb | ⟨_, e, he, hf, hav⟩
        · exact ⟨d, hb, hd1, hd2⟩
        · exact ⟨e, he, hf.1.trans hd1, hav⟩
      · cases hb : bound_now k s id with
        | false => rw [hb] at hx; simp at hx
        | true =>
          rw [hb] at hx
          simp only [if_true, List.mem_singleton] at hx
          subst hx
          obtain ⟨hnone, e0, hfresh, heq⟩ := (hotplug_connector_bound k read_dpms res s x).1 hb
          refine ⟨?_, e0, by rw [heq]; simp, hfresh.1, hfresh.2.1⟩
          intro d0 hd0
          obtain ⟨d, hd, hf⟩ := hinv.2.2.1 d0 hd0
          rw [← hf.1]; exact hnone d hd

/-- Claim C7, amended: after every successful reconciliation, a display is
bound on a connector exactly when the kernel reported the connector as
connected during the scan and either a display on it was known before or
`bind_display` succeeded for it in the state of the scan (the display was
created, at least one mode attached and the registration was accepted).  A
display is added only for a connected connector that had none; every bound
display sits on a connector reported connected (the display of a connector no
longer connected has been removed); every connector reported connected that had
a display still has one; and when no creation, attachment or registration
fails and every connected connector reports at least one mode, the two sets of
connector ids are equal. -/
theorem hotplug_bound_connectors (k : Kernel) (w : World) (video : Video) (read_dpms : Bool)
    (res : Res) (hawake : video.awake = true) (hpending : video.hotplug = true)
    (hres : (drmModeGetResources k w).1 = some res) :
    (uterm_drm_video_hotplug k w video read_dpms).1 = 0 ∧
    (∀ id, (∃ d ∈ (uterm_drm_video_hotplug k w video read_dpms).2.2.displays, d.conn_id = id) ↔
      (id ∈ hotplug_connected k w video read_dpms res ∧
        ∃ d0 ∈ video.displays, d0.conn_id = id) ∨
      id ∈ hotplug_bound k w video read_dpms res) ∧
    (∀ id ∈ hotplug_bound k w video read_dpms res,
      id ∈ hotplug_connected k w video read_dpms res ∧
      ∀ d0 ∈ video.displays, d0.conn_id ≠ id) ∧
    (∀ d ∈ (uterm_drm_video_hotplug k w video read_dpms).2.2.displays,
      d.conn_id ∈ hotplug_connected k w video read_dpms res) ∧
    (∀ id ∈ hotplug_connected k w video read_dpms res,
      (∃ d0 ∈ video.displays, d0.conn_id = id) →
      ∃ d ∈ (uterm_drm_video_hotplug k w video read_dpms).2.2.displays, d.conn_id = id) ∧
    (NoFail k → ∀ id, id ∈ hotplug_connected k w video read_dpms res ↔
      ∃ d ∈ (uterm_drm_video_hotplug k w video read_dpms).2.2.displays, d.conn_id = id) := by
  obtain ⟨h0, _, hd, hinv⟩ := hotplug_displays k w video read_dpms res hawake hpending hres
  obtain ⟨i1, i2, i3, _⟩ := hinv
  obtain ⟨j1, j2⟩ := scan_bound_invariant k read_dpms res video.displays res.connectors
    (scan_start k w video) [] [] (scanInv_start video.displays)
    (by
      intro d hdm
      simp only [scan_start, List.mem_map] at hdm
      obtain ⟨d0, hd0, rfl⟩ := hdm
      exact Or.inl ⟨d0, hd0, rfl⟩)
    (by intro x hx; simp at hx)
  simp only [List.nil_append] at j1 j2
  have hsound : ∀ d ∈ (uterm_drm_video_hotplug k w video read_dpms).2.2.displays,
      d.conn_id ∈ hotplug_connected k w video read_dpms res := by
    intro d hdm
    rw [hd, List.mem_filter] at hdm
    exact i1 d hdm.1 hdm.2
  have hkeep : ∀ id ∈ hotplug_connected k w video read_dpms res,
      (∃ d ∈ (hotplug_scan k read_dpms res (scan_start k w video) res.connectors).2.displays,
        d.conn_id = id) →
      ∃ d ∈ (uterm_drm_video_hotplug k w video read_dpms).2.2.displays, d.conn_id = id := by
    intro id hid hex
    obtain ⟨d, hd1, hd2, hd3⟩ := i2 id hid hex
    exact ⟨d, by rw [hd, List.mem_filter]; exact ⟨hd1, hd3⟩, hd2⟩
  have hknown : ∀ id ∈ hotplug_connected k w video read_dpms res,
      (∃ d0 ∈ video.displays, d0.conn_id = id) →
      ∃ d ∈ (uterm_drm_video_hotplug k w video read_dpms).2.2.displays, d.conn_id = id := by
    intro id hid ⟨d0, hd0, hd0id⟩
    obtain ⟨d, hd1, hf⟩ := i3 d0 hd0
    exact hkeep id hid ⟨d, hd1, hf.1.trans hd0id⟩
  have hbound : ∀ id ∈ hotplug_bound k w video read_dpms res,
      ∃ d ∈ (uterm_drm_video_hotplug k w video read_dpms).2.2.displays, d.conn_id = id := by
    intro id hid
    obtain ⟨_, d, hd1, hd2, hd3⟩ := j2 id hid
    exact ⟨d, by rw [hd, List.mem_filter]; exact ⟨hd1, hd3⟩, hd2⟩
  refine ⟨h0, ?_, ?_, hsound, hknown, ?_⟩
  · intro id
    constructor
    · intro ⟨d, hdm, hdid⟩
      have hconn := hsound d hdm
      rw [hd, List.mem_filter] at hdm
      rcases j1 d hdm.1 with ⟨d0, hd0, hd0id⟩ | hb
      · left; exact ⟨hdid ▸ hconn, d0, hd0, hd0id.trans hdid⟩
      · right; exact hdid ▸ hb
    · intro h
      rcases h with ⟨hid, hex⟩ | hb
      · exact hknown id hid hex
      · exact hbound id hb
  · intro id hid
    obtain ⟨d, hdm, hdid⟩ := hbound id hid
    exact ⟨hdid ▸ hsound d hdm, (j2 id hid).1⟩
  · intro hk id
    constructor
    · intro hid
      have hall := all_bound_scan k hk read_dpms res res.connectors (scan_start k w video) []
        (by intro x hx; simp at hx) id (by simpa [hotplug_connected] using hid)
      exact hkeep id hid hall
    · intro ⟨d, hdm, hdid⟩
      rw [← hdid]; exact hsound d hdm

/-- Witness for C7: on a kernel where nothing fails, a device without displays
gets one display for each of the two connected connectors; on a kernel where
connector 20 reports one mode and connector 21 none, both are reported
connected and a display is bound for connector 20 only. -/
theorem hotplug_bound_connectors_witness :
    video_pending.awake = true ∧ video_pending.hotplug = true ∧
    (drmModeGetResources kernel_ok world_start).1 = some res_ok ∧ NoFail kernel_ok ∧
    hotplug_connected kernel_ok world_start video_pending true res_ok = [20, 21] ∧
    (uterm_drm_video_hotplug kernel_ok world_start video_pending true).2.2.displays.map
      Display.conn_id = [20, 21] ∧
    (∀ id, id ∈ hotplug_connected kernel_ok world_start video_pending true res_ok ↔
      ∃ d ∈ (uterm_drm_video_hotplug kernel_ok world_start video_pending true).2.2.displays,
        d.conn_id = id) ∧
    (drmModeGetResources kernel_mixed world_start).1 = some res_ok ∧
    hotplug_connected kernel_mixed world_start video_pending true res_ok = [20, 21] ∧
    hotplug_bound kernel_mixed world_start video_pending true res_ok = [20] ∧
    (uterm_drm_video_hotplug kernel_mixed world_start video_pending true).2.2.displays.map
      Display.conn_id = [20] ∧
    (∀ id,
      (∃ d ∈ (uterm_drm_video_hotplug kernel_mixed world_start video_pending true).2.2.displays,
        d.conn_id = id) ↔
      (id ∈ hotplug_connected kernel_mixed world_start video_pending true res_ok ∧
        ∃ d0 ∈ video_pending.displays, d0.conn_id = id) ∨
      id ∈ hotplug_bound kernel_mixed world_start video_pending true res_ok) :=
  ⟨by decide, by decide, by decide, noFail_kernel_ok, by decide, by decide,
    (hotplug_bound_connectors kernel_ok world_start video_pending true res_ok (by decide)
      (by decide) (by decide)).2.2.2.2.2 noFail_kernel_ok,
    by decide, by decide, by decide, by decide,
    (hotplug_bound_connectors kernel_mixed world_start video_pending true res_ok (by decide)
      (by decide) (by decide)).2.1⟩

/-- Claim C8: after every successful reconciliation of a device whose displays
sit on pairwise distinct connectors, a previously known display whose connector
was reported connected during the scan is still bound, with AVAILABLE set and
its connector id, crtc id, snapshot and modes as before; a previously known
display whose connector was not reported connected has been unbound (no bound
display has its connector id); the bound displays still sit on pairwise
distinct connectors and all have AVAILABLE set; and HOTPLUG_PENDING is clear. -/
theorem hotplug_known_displays (k : Kernel) (w : World) (video : Video) (read_dpms : Bool)
    (res : Res) (hawake : video.awake = true) (hpending : video.hotplug = true)
    (hres : (drmModeGetResources k w).1 = some res)
    (hdistinct : (video.displays.map Display.conn_id).Nodup) :
    (uterm_drm_video_hotplug k w video read_dpms).1 = 0 ∧
    (∀ d0 ∈ video.displays, d0.conn_id ∈ hotplug_connected k w video read_dpms res →
      ∃ d ∈ (uterm_drm_video_hotplug k w video read_dpms).2.2.displays,
        d.conn_id = d0.conn_id ∧ d.available = true ∧ d.crtc_id = d0.crtc_id ∧
        d.saved_crtc = d0.saved_crtc ∧ d.modes = d0.modes ∧
        d.default_mode = d0.default_mode) ∧
    (∀ d0 ∈ video.displays, d0.conn_id ∉ hotplug_connected k w video read_dpms res →
      ∀ d ∈ (uterm_drm_video_hotplug k w video read_dpms).2.2.displays,
        d.conn_id ≠ d0.conn_id) ∧
    ((uterm_drm_video_hotplug k w video read_dpms).2.2.displays.map Display.conn_id).Nodup ∧
    (∀ d ∈ (uterm_drm_video_hotplug k w video read_dpms).2.2.displays, d.available = true) ∧
    (uterm_drm_video_hotplug k w video read_dpms).2.2.hotplug = false := by
  obtain ⟨h0, hflag, hd, i1, i2, i3, i4⟩ :=
    hotplug_displays k w video read_dpms res hawake hpending hres
  refine ⟨h0, ?_, ?_, ?_, ?_, hflag⟩
  · intro d0 hd0 hconn
    obtain ⟨d1, hd1, hf1⟩ := i3 d0 hd0
    obtain ⟨d, hdm, hdid, hdav⟩ := i2 d0.conn_id hconn ⟨d1, hd1, hf1.1⟩
    refine ⟨d, by rw [hd, List.mem_filter]; exact ⟨hdm, hdav⟩, hdid, hdav, ?_⟩
    rcases i4 d hdm with ⟨d0b, hd0b, hf⟩ | ⟨_, hnot⟩
    · have hsame : d0b = d0 :=
        List.inj_on_of_nodup_map hdistinct hd0b hd0 (by rw [← hf.1, hdid])
      subst hsame
      exact ⟨hf.2.1, hf.2.2.1, hf.2.2.2.1, hf.2.2.2.2.1⟩
    · exact absurd hdid.symm (hnot d0 hd0)
  · intro d0 _ hnot d hdm hdid
    rw [hd, List.mem_filter] at hdm
    exact hnot (hdid ▸ i1 d hdm.1 hdm.2)
  · rw [hd]
    have hnd := nodup_scan k read_dpms res res.connectors (scan_start k w video)
      (by simpa [scan_start, Function.comp] using hdistinct)
    exact hnd.sublist ((List.filter_sublist _).map _)
  · intro d hdm
    rw [hd, List.mem_filter] at hdm
    exact hdm.2

/-- Witness for C8: connector 20 stays connected and connector 21 is gone; the
display on connector 20 keeps CRTC 5 and the display on connector 21 is
unbound. -/
theorem hotplug_known_displays_witness :
    video_known.awake = true ∧ video_known.hotplug = true ∧
    (drmModeGetResources kernel_half world_start).1 = some res_ok ∧
    (video_known.displays.map Display.conn_id).Nodup ∧
    hotplug_connected kernel_half world_start video_known true res_ok = [20] ∧
    (uterm_drm_video_hotplug kernel_half world_start video_known true).2.2.displays =
      [disp_on5] ∧
    (uterm_drm_video_hotplug kernel_half world_start video_known true).2.2.hotplug = false :=
  ⟨by decide, by decide, by decide, by decide, by decide, by decide,
    (hotplug_known_displays kernel_half world_start video_known true res_ok (by decide)
      (by decide) (by decide) (by decide)).2.2.2.2.2⟩

/-- Claim C13: if the device is not awake or HOTPLUG_PENDING is not set,
`uterm_drm_video_hotplug` returns 0 with the call history (no device call), the
device flags, the display collection and every display unchanged. -/
theorem hotplug_noop (k : Kernel) (w : World) (video : Video) (read_dpms : Bool)
    (h : video.awake = false ∨ video.hotplug = false) :
    uterm_drm_video_hotplug k w video read_dpms = (0, w, video) := by
  unfold uterm_drm_video_hotplug
  have hc : (!video_is_awake video || !video_need_hotplug video) = true := by
    rcases h with h | h <;> simp [video_is_awake, video_need_hotplug, h]
  rw [if_pos hc]

/-- Witness for C13: an awake device without pending hotplug. -/
theorem hotplug_noop_witness :
    (video_settled.awake = false ∨ video_settled.hotplug = false) ∧
    uterm_drm_video_hotplug kernel_ok world_start video_settled true =
      (0, world_start, video_settled) :=
  ⟨by decide, hotplug_noop kernel_ok world_start video_settled true (by decide)⟩

/-- Claim C14: when the resource fetch of a reconciliation fails (device awake,
HOTPLUG_PENDING set), `uterm_drm_video_hotplug` returns the error -EACCES,
having issued the resource fetch only, and the device is as before: the
display collection, every display's AVAILABLE flag and HOTPLUG_PENDING are
unchanged. -/
theorem hotplug_resources_fail (k : Kernel) (w : World) (video : Video) (read_dpms : Bool)
    (hawake : video.awake = true) (hpending : video.hotplug = true)
    (hres : (drmModeGetResources k w).1 = none) :
    (uterm_drm_video_hotplug k w video read_dpms).1 = -EACCES ∧
    (uterm_drm_video_hotplug k w video read_dpms).1 ≠ 0 ∧
    (uterm_drm_video_hotplug k w video read_dpms).2.1.calls = Call.getResources :: w.calls ∧
    (uterm_drm_video_hotplug k w video read_dpms).2.2 = video := by
  have heq : uterm_drm_video_hotplug k w video read_dpms =
      (-EACCES, (drmModeGetResources k w).2, video) := by
    unfold uterm_drm_video_hotplug
    have hc : ¬ ((!video_is_awake video || !video_need_hotplug video) = true) := by
      simp [video_is_awake, video_need_hotplug, hawake, hpending]
    rw [if_neg hc]
    split
    · rfl
    · rename_i res h; rw [hres] at h; exact absurd h (by simp)
  rw [heq]
  exact ⟨rfl, by simp [EACCES], rfl, rfl⟩

/-- Witness for C14: a kernel whose resource fetch fails. -/
theorem hotplug_resources_fail_witness :
    video_known.awake = true ∧ video_known.hotplug = true ∧
    (drmModeGetResources kernel_nores world_start).1 = none ∧
    (uterm_drm_video_hotplug kernel_nores world_start video_known true).1 = -EACCES ∧
    (uterm_drm_video_hotplug kernel_nores world_start video_known true).2.2 = video_known :=
  ⟨by decide, by decide, by decide,
    (hotplug_resources_fail kernel_nores world_start video_known true (by decide) (by decide)
      (by decide)).1,
    (hotplug_resources_fail kernel_nores world_start video_known true (by decide) (by decide)
      (by decide)).2.2.2⟩

/-- Claim C19: if no two bound displays share a connector id before
`uterm_drm_video_hotplug`, none do after it, whatever the kernel answers and
however often its connector list names the same connector. -/
theorem hotplug_conn_ids_distinct (k : Kernel) (w : World) (video : Video) (read_dpms : Bool)
    (h : (video.displays.map Display.conn_id).Nodup) :
    ((uterm_drm_video_hotplug k w video read_dpms).2.2.displays.map Display.conn_id).Nodup := by
  unfold uterm_drm_video_hotplug
  split
  · exact h
  · split
    · exact h
    · rename_i res _
      simp only [hotplug_unbind_eq]
      have hstart : (((drmModeGetResources k w).2,
          ({ video with displays := video.displays.map (fun d => { d with available := false }) }
            : Video)).2.displays.map Display.conn_id).Nodup := by
        simpa [Function.comp] using h
      exact (nodup_scan k read_dpms res res.connectors _ hstart).sublist
        ((List.filter_sublist _).map _)

/-- Witness for C19: the kernel names connector 20 twice; one display is bound
for it. -/
theorem hotplug_conn_ids_distinct_witness :
    (video_pending.displays.map Display.conn_id).Nodup ∧
    (uterm_drm_video_hotplug kernel_twice world_start video_pending true).2.2.displays.map
      Display.conn_id = [20] ∧
    ((uterm_drm_video_hotplug kernel_twice world_start video_pending true).2.2.displays.map
      Display.conn_id).Nodup :=
  ⟨by decide, by decide,
    hotplug_conn_ids_distinct kernel_twice world_start video_pending true (by decide)⟩

/-! ## Activation: error codes and the first encoder that works -/

theorem activate_loop_none (k : Kernel) (video : Video) (res : Res) (es : List Nat) :
    ∀ (crtc : Int) (w : World), crtc < 0 → encoder_yields k video res w es = false →
      (activate_loop k video res crtc w es).1 < 0 ∧
      (activate_loop k video res crtc w es).2 = encoders_fetched w es := by
  induction es with
  | nil => intro crtc w h _; exact ⟨h, rfl⟩
  | cons e es ih =>
    intro crtc w h hy
    unfold encoder_yields at hy
    simp only [Bool.or_eq_false_iff] at hy
    unfold activate_loop
    cases hf : (drmModeGetEncoder k w e).1 with
    | none => exact ih crtc _ h hy.2
    | some enc =>
      rw [hf] at hy
      have hlt : ¬ uterm_drm_video_find_crtc video res enc ≥ 0 := by simpa using hy.1
      simp only [hlt, if_false]
      exact ih _ _ (by omega) hy.2

theorem activate_loop_first (k : Kernel) (video : Video) (res : Res) (pre : List Nat)
    (e : Nat) (post : List Nat) (enc : Encoder) :
    ∀ (crtc : Int) (w : World), encoder_yields k video res w pre = false →
      (drmModeGetEncoder k (encoders_fetched w pre) e).1 = some enc →
      uterm_drm_video_find_crtc video res enc ≥ 0 →
      activate_loop k video res crtc w (pre ++ e :: post) =
        (uterm_drm_video_find_crtc video res enc,
          (encoders_fetched w pre).log (Call.getEncoder e)) := by
  induction pre with
  | nil =>
    intro crtc w _ hf hge
    simp only [encoders_fetched, List.foldl_nil] at hf
    simp only [List.nil_append, activate_loop, hf, hge, if_true, encoders_fetched,
      List.foldl_nil]
    rfl
  | cons a pre ih =>
    intro crtc w hy hf hge
    unfold encoder_yields at hy
    simp only [Bool.or_eq_false_iff] at hy
    have hw : encoders_fetched w (a :: pre) =
        encoders_fetched (drmModeGetEncoder k w a).2 pre := rfl
    rw [hw] at hf ⊢
    simp only [List.cons_append]
    unfold activate_loop
    cases hfa : (drmModeGetEncoder k w a).1 with
    | none => exact ih crtc _ hy.2 hf hge
    | some enca =>
      rw [hfa] at hy
      have hlt : ¬ uterm_drm_video_find_crtc video res enca ≥ 0 := by simpa using hy.1
      simp only [hlt, if_false]
      exact ih _ _ hy.2 hf hge

theorem encoder_yields_split (k : Kernel) (video : Video) (res : Res) (es : List Nat) :
    ∀ (w : World), encoder_yields k video res w es = true →
      ∃ pre e post enc, es = pre ++ e :: post ∧ encoder_yields k video res w pre = false ∧
        (drmModeGetEncoder k (encoders_fetched w pre) e).1 = some enc ∧
        uterm_drm_video_find_crtc video res enc ≥ 0 := by
  induction es with
  | nil => intro w h; simp [encoder_yields] at h
  | cons a es ih =>
    intro w h
    cases hfa : (drmModeGetEncoder k w a).1 with
    | none =>
      have h2 : encoder_yields k video res (drmModeGetEncoder k w a).2 es = true := by
        unfold encoder_yields at h
        rw [hfa] at h
        simpa using h
      obtain ⟨pre, e, post, enc, h1, h3, h4, h5⟩ := ih _ h2
      refine ⟨a :: pre, e, post, enc, by rw [h1]; rfl, ?_, h4, h5⟩
      unfold encoder_yields
      rw [hfa, h3]; rfl
    | some enca =>
      by_cases hge : uterm_drm_video_find_crtc video res enca ≥ 0
      · exact ⟨[], a, es, enca, rfl, rfl, hfa, hge⟩
      · have h2 : encoder_yields k video res (drmModeGetEncoder k w a).2 es = true := by
          unfold encoder_yields at h
          rw [hfa] at h
          simpa [hge] using h
        obtain ⟨pre, e, post, enc, h1, h3, h4, h5⟩ := ih _ h2
        refine ⟨a :: pre, e, post, enc, by rw [h1]; rfl, ?_, h4, h5⟩
        unfold encoder_yields
        rw [hfa, h3]
        simp [hge]

/-- The result of the encoder loop, by whether some encoder yields a CRTC. -/
theorem activate_loop_sign (k : Kernel) (video : Video) (res : Res) (w : World)
    (es : List Nat) :
    (encoder_yields k video res w es = false → (activate_loop k video res (-1) w es).1 < 0) ∧
    (encoder_yields k video res w es = true → 0 ≤ (activate_loop k video res (-1) w es).1) := by
  constructor
  · intro h; exact (activate_loop_none k video res es (-1) w (by omega) h).1
  · intro h
    obtain ⟨pre, e, post, enc, h1, h2, h3, h4⟩ := encoder_yields_split k video res es w h
    rw [h1, activate_loop_first k video res pre e post enc (-1) w h2 h3 h4]
    exact h4

theorem encoders_fetched_calls (es : List Nat) :
    ∀ w : World, (encoders_fetched w es).calls = (es.map Call.getEncoder).reverse ++ w.calls := by
  induction es with
  | nil => intro w; rfl
  | cons e es ih =>
    intro w
    have hw : encoders_fetched w (e :: es) = encoders_fetched (w.log (Call.getEncoder e)) es :=
      rfl
    rw [hw, ih]
    simp [World.log]

theorem activate_failure (k : Kernel) (w : World) (video : Video) (disp : Display)
    (h : (uterm_drm_display_activate k w video disp).1 ≠ 0) :
    (uterm_drm_display_activate k w video disp).2.2 = disp := by
  rcases activate_cases k w video disp with ⟨_, h2⟩ | ⟨h2, _⟩
  · exact h2
  · exact absurd h2 h

theorem activate_fetched (k : Kernel) (w : World) (video : Video) (disp : Display) (res : Res)
    (conn : Connector) (hres : (drmModeGetResources k w).1 = some res)
    (hconn : (drmModeGetConnector k (drmModeGetResources k w).2 disp.conn_id).1 = some conn) :
    uterm_drm_display_activate k w video disp =
      (let r := activate_loop k video res (-1)
        (drmModeGetConnector k (drmModeGetResources k w).2 disp.conn_id).2 conn.encoders
       if r.1 < 0 then (-ENODEV, r.2, disp)
       else (0, (drmModeGetCrtc k r.2 r.1).2,
          { disp with crtc_id := r.1, saved_crtc := (drmModeGetCrtc k r.2 r.1).1 })) := by
  unfold uterm_drm_display_activate
  simp only [hres, hconn]

/-- Claim C12: `uterm_drm_display_activate` returns -EFAULT exactly when the
resource fetch or the connector fetch fails; when both succeed it returns
-ENODEV exactly when no successfully fetched encoder of the connector gets an
id from `uterm_drm_video_find_crtc`, and 0 otherwise; and whenever it fails
the display, its crtc id and snapshot included, is as before the call. -/
theorem activate_error_codes (k : Kernel) (w : World) (video : Video) (disp : Display) :
    ((uterm_drm_display_activate k w video disp).1 = -EFAULT ↔
      (drmModeGetResources k w).1 = none ∨
      (drmModeGetConnector k (drmModeGetResources k w).2 disp.conn_id).1 = none) ∧
    (∀ res conn, (drmModeGetResources k w).1 = some res →
      (drmModeGetConnector k (drmModeGetResources k w).2 disp.conn_id).1 = some conn →
      ((uterm_drm_display_activate k w video disp).1 = -ENODEV ↔
        encoder_yields k video res
          (drmModeGetConnector k (drmModeGetResources k w).2 disp.conn_id).2
          conn.encoders = false) ∧
      ((uterm_drm_display_activate k w video disp).1 = 0 ↔
        encoder_yields k video res
          (drmModeGetConnector k (drmModeGetResources k w).2 disp.conn_id).2
          conn.encoders = true)) ∧
    ((uterm_drm_display_activate k w video disp).1 ≠ 0 →
      (uterm_drm_display_activate k w video disp).2.2 = disp ∧
      (uterm_drm_display_activate k w video disp).2.2.crtc_id = disp.crtc_id ∧
      (uterm_drm_display_activate k w video disp).2.2.saved_crtc = disp.saved_crtc) := by
  have hcodes : ∀ res conn, (drmModeGetResources k w).1 = some res →
      (drmModeGetConnector k (drmModeGetResources k w).2 disp.conn_id).1 = some conn →
      ((uterm_drm_display_activate k w video disp).1 = -ENODEV ↔
        encoder_yields k video res
          (drmModeGetConnector k (drmModeGetResources k w).2 disp.conn_id).2
          conn.encoders = false) ∧
      ((uterm_drm_display_activate k w video disp).1 = 0 ↔
        encoder_yields k video res
          (drmModeGetConnector k (drmModeGetResources k w).2 disp.conn_id).2
          conn.encoders = true) := by
    intro res conn hres hconn
    rw [activate_fetched k w video disp res conn hres hconn]
    obtain ⟨hneg, hpos⟩ := activate_loop_sign k video res
      (drmModeGetConnector k (drmModeGetResources k w).2 disp.conn_id).2 conn.encoders
    cases hy : encoder_yields k video res
        (drmModeGetConnector k (drmModeGetResources k w).2 disp.conn_id).2 conn.encoders with
    | false =>
      have := hneg hy
      simp only [this, if_true]
      simp [ENODEV]
    | true =>
      have := hpos hy
      have hn : ¬ (activate_loop k video res (-1)
        (drmModeGetConnector k (drmModeGetResources k w).2 disp.conn_id).2 conn.encoders).1 < 0 :=
        by omega
      simp only [hn, if_false]
      simp [ENODEV]
  refine ⟨?_, hcodes, ?_⟩
  · cases hres : (drmModeGetResources k w).1 with
    | none => simp [uterm_drm_display_activate, hres]
    | some res =>
      cases hconn : (drmModeGetConnector k (drmModeGetResources k w).2 disp.conn_id).1 with
      | none => simp [uterm_drm_display_activate, hres, hconn]
      | some conn =>
        obtain ⟨h1, h2⟩ := hcodes res conn hres hconn
        simp only [reduceCtorEq, or_self, iff_false]
        intro hf
        cases hy : encoder_yields k video res
            (drmModeGetConnector k (drmModeGetResources k w).2 disp.conn_id).2 conn.encoders with
        | false => rw [h1.2 hy] at hf; simp [ENODEV, EFAULT] at hf
        | true => rw [h2.2 hy] at hf; simp [EFAULT] at hf
  · intro h
    have := activate_failure k w video disp h
    exact ⟨this, by rw [this], by rw [this]⟩

/-- Witness for C12: a device whose only CRTC is held; activation of the idle
display fails with -ENODEV and leaves it untouched. -/
theorem activate_error_codes_witness :
    (uterm_drm_display_activate kernel_single world_start video_two disp_idle).1 = -ENODEV ∧
    ((uterm_drm_display_activate kernel_single world_start video_two disp_idle).1 = -ENODEV ↔
      encoder_yields kernel_single video_two { crtcs := [5], connectors := [20] }
        (drmModeGetConnector kernel_single (drmModeGetResources kernel_single world_start).2
          disp_idle.conn_id).2 [30] = false) ∧
    (uterm_drm_display_activate kernel_single world_start video_two disp_idle).2.2 = disp_idle :=
  ⟨by decide,
    ((activate_error_codes kernel_single world_start video_two disp_idle).2.1
      { crtcs := [5], connectors := [20] }
      { connector_id := 21, connection := DRM_MODE_CONNECTED, encoders := [30],
        props := [(7, 0)], modes := [info_a] } (by decide) (by decide)).1,
    ((activate_error_codes kernel_single world_start video_two disp_idle).2.2
      (by decide)).1⟩

/-- Claim C18: `uterm_drm_display_activate` succeeds exactly through the first
encoder, in the connector's order, that is fetched and gets an id from
`uterm_drm_video_find_crtc`: that id is recorded as crtc id, encoders whose
fetch fails or that get no id are passed over, and the call history ends with
the fetch of that encoder and the snapshot fetch, so later encoders are not
consulted. -/
theorem activate_first_encoder (k : Kernel) (w : World) (video : Video) (disp : Display) :
    (∀ res conn pre e post enc, (drmModeGetResources k w).1 = some res →
      (drmModeGetConnector k (drmModeGetResources k w).2 disp.conn_id).1 = some conn →
      conn.encoders = pre ++ e :: post →
      encoder_yields k video res
        (drmModeGetConnector k (drmModeGetResources k w).2 disp.conn_id).2 pre = false →
      (drmModeGetEncoder k (encoders_fetched
        (drmModeGetConnector k (drmModeGetResources k w).2 disp.conn_id).2 pre) e).1 =
          some enc →
      uterm_drm_video_find_crtc video res enc ≥ 0 →
      (uterm_drm_display_activate k w video disp).1 = 0 ∧
      (uterm_drm_display_activate k w video disp).2.2.crtc_id =
        uterm_drm_video_find_crtc video res enc ∧
      (uterm_drm_display_activate k w video disp).2.1.calls =
        Call.getCrtc (uterm_drm_video_find_crtc video res enc) :: Call.getEncoder e ::
          ((pre.map Call.getEncoder).reverse ++
            Call.getConnector disp.conn_id :: Call.getResources :: w.calls)) ∧
    ((uterm_drm_display_activate k w video disp).1 = 0 →
      ∃ res conn pre e post enc, (drmModeGetResources k w).1 = some res ∧
        (drmModeGetConnector k (drmModeGetResources k w).2 disp.conn_id).1 = some conn ∧
        conn.encoders = pre ++ e :: post ∧
        encoder_yields k video res
          (drmModeGetConnector k (drmModeGetResources k w).2 disp.conn_id).2 pre = false ∧
        (drmModeGetEncoder k (encoders_fetched
          (drmModeGetConnector k (drmModeGetResources k w).2 disp.conn_id).2 pre) e).1 =
            some enc ∧
        uterm_drm_video_find_crtc video res enc ≥ 0) := by
  constructor
  · intro res conn pre e post enc hres hconn hsplit hpre hfetch hge
    rw [activate_fetched k w video disp res conn hres hconn, hsplit,
      activate_loop_first k video res pre e post enc (-1) _ hpre hfetch hge]
    have hn : ¬ uterm_drm_video_find_crtc video res enc < 0 := by omega
    simp only [hn, if_false]
    refine ⟨trivial, trivial, ?_⟩
    simp [drmModeGetCrtc, World.log, encoders_fetched_calls, drmModeGetConnector,
      drmModeGetResources]
  · intro h0
    cases hres : (drmModeGetResources k w).1 with
    | none => simp [uterm_drm_display_activate, hres, EFAULT] at h0
    | some res =>
      cases hconn : (drmModeGetConnector k (drmModeGetResources k w).2 disp.conn_id).1 with
      | none => simp [uterm_drm_display_activate, hres, hconn, EFAULT] at h0
      | some conn =>
        have hy : encoder_yields k video res
            (drmModeGetConnector k (drmModeGetResources k w).2 disp.conn_id).2
            conn.encoders = true := by
          cases hy : encoder_yields k video res
              (drmModeGetConnector k (drmModeGetResources k w).2 disp.conn_id).2
              conn.encoders with
          | true => rfl
          | false =>
            have hneg := (activate_loop_sign k video res
              (drmModeGetConnector k (drmModeGetResources k w).2 disp.conn_id).2
              conn.encoders).1 hy
            rw [activate_fetched k w video disp res conn hres hconn] at h0
            simp only [hneg, if_true] at h0
            simp [ENODEV] at h0
        obtain ⟨pre, e, post, enc, h1, h2, h3, h4⟩ := encoder_yields_split k video res _ _ hy
        exact ⟨res, conn, pre, e, post, enc, rfl, rfl, h1, h2, h3, h4⟩

/-- Witness for C18: encoder 30 cannot be fetched, encoder 31 offers only the
held CRTC 5, encoder 32 yields CRTC 7; the display records 7. -/
theorem activate_first_encoder_witness :
    (uterm_drm_display_activate kernel_encoders world_start video_two disp_idle).1 = 0 ∧
    (uterm_drm_display_activate kernel_encoders world_start video_two disp_idle).2.2.crtc_id =
      uterm_drm_video_find_crtc video_two { crtcs := [5, 7], connectors := [20, 21] }
        { possible_crtcs := 3 } ∧
    (uterm_drm_display_activate kernel_encoders world_start video_two disp_idle).2.1.calls =
      Call.getCrtc (uterm_drm_video_find_crtc video_two
          { crtcs := [5, 7], connectors := [20, 21] } { possible_crtcs := 3 }) ::
        Call.getEncoder 32 ::
          (([30, 31].map Call.getEncoder).reverse ++
            Call.getConnector disp_idle.conn_id :: Call.getResources :: world_start.calls) :=
  (activate_first_encoder kernel_encoders world_start video_two disp_idle).1
    { crtcs := [5, 7], connectors := [20, 21] }
    { connector_id := 21, connection := DRM_MODE_CONNECTED, encoders := [30, 31, 32],
      props := [(7, 0)], modes := [info_a] }
    [30, 31] 32 [] { possible_crtcs := 3 } (by decide) (by decide) (by decide) (by decide)
    (by decide) (by decide)

/-! ## Activation against the crtc ids of all displays -/

theorem encoder_offers_yields (k : Kernel) (video : Video) (res : Res)
    (hid : ∀ c ∈ res.crtcs, c < 2 ^ 31) (es : List Nat) :
    ∀ w : World, encoder_offers k video res w es → encoder_yields k video res w es = true := by
  induction es with
  | nil => intro w h; exact h.elim
  | cons e es ih =>
    intro w h
    unfold encoder_offers at h
    unfold encoder_yields
    rcases h with ⟨enc, hf, i, c, hc, hbit, hfree⟩ | h
    · rw [hf]
      obtain ⟨h1, h2⟩ := find_crtc_loop_spec video.displays enc.possible_crtcs res.crtcs 0 hid
      have hne : find_crtc_loop video.displays enc.possible_crtcs 0 res.crtcs ≠ -1 := by
        intro heq
        exact hfree (h1.1 heq i c hc (by simpa using hbit))
      obtain ⟨_, c2, _, _, _, _, hval⟩ := h2 hne
      have hge : uterm_drm_video_find_crtc video res enc ≥ 0 := by
        unfold uterm_drm_video_find_crtc
        rw [hval]; exact Int.ofNat_nonneg c2
      simp [hge]
    · rw [ih _ h]; simp

/-- Claim C17 as stated fails: on a device whose only display records CRTC 5,
with CRTC 5 the only CRTC and compatible with the connector's encoder, no other
display claims CRTC 5, yet activating that display fails with -ENODEV, because
`uterm_drm_video_find_crtc` compares against every display of the device, the
one being activated included. -/
theorem activate_counts_own_crtc :
    video_one.displays = [disp_on5] ∧ disp_on5.crtc_id = 5 ∧
    (drmModeGetResources kernel_single world_start).1 =
      some { crtcs := [5], connectors := [20] } ∧
    (drmModeGetEncoder kernel_single world_start 30).1 = some { possible_crtcs := 1 } ∧
    ¬ Claimed (video_one.displays.erase disp_on5) 5 ∧
    (uterm_drm_display_activate kernel_single world_start video_one disp_on5).1 = -ENODEV := by
  refine ⟨by decide, by decide, by decide, by decide, ?_, by decide⟩
  rintro ⟨d, hd, _⟩
  have : video_one.displays.erase disp_on5 = [] := by decide
  rw [this] at hd
  simp at hd

/-- Claim C17, amended: `uterm_drm_display_activate` decides against the crtc
ids recorded by every display of the device, the display being activated
included.  Whenever the resource and connector lookups succeed, the CRTC ids
are below 2^31 and some fetched encoder of the connector is compatible with a
CRTC whose id no display of the device records, activation succeeds: it does
not fail with -ENODEV. -/
theorem activate_free_crtc (k : Kernel) (w : World) (video : Video) (disp : Display)
    (res : Res) (conn : Connector) (hres : (drmModeGetResources k w).1 = some res)
    (hconn : (drmModeGetConnector k (drmModeGetResources k w).2 disp.conn_id).1 = some conn)
    (_hlen : res.crtcs.length < 32) (hid : ∀ c ∈ res.crtcs, c < 2 ^ 31)
    (hoffer : encoder_offers k video res
      (drmModeGetConnector k (drmModeGetResources k w).2 disp.conn_id).2 conn.encoders) :
    (uterm_drm_display_activate k w video disp).1 = 0 ∧
    (uterm_drm_display_activate k w video disp).1 ≠ -ENODEV ∧
    ¬ Claimed video.displays (uterm_drm_display_activate k w video disp).2.2.crtc_id := by
  have hy := encoder_offers_yields k video res hid conn.encoders _ hoffer
  have hpos := (activate_loop_sign k video res
    (drmModeGetConnector k (drmModeGetResources k w).2 disp.conn_id).2 conn.encoders).2 hy
  have h0 : (uterm_drm_display_activate k w video disp).1 = 0 := by
    rw [activate_fetched k w video disp res conn hres hconn]
    have hn : ¬ (activate_loop k video res (-1)
      (drmModeGetConnector k (drmModeGetResources k w).2 disp.conn_id).2 conn.encoders).1 < 0 :=
      by omega
    simp only [hn, if_false]
  refine ⟨h0, by rw [h0]; simp [ENODEV], ?_⟩
  rcases activate_cases k w video disp with ⟨h1, _⟩ | ⟨_, _, h3⟩
  · exact absurd h0 h1
  · exact h3

/-- Witness for C17: CRTC 5 is held by the first display, CRTC 7 is free; the
idle display is activated. -/
theorem activate_free_crtc_witness :
    (drmModeGetResources kernel_ok world_start).1 = some res_ok ∧
    (∀ c ∈ res_ok.crtcs, c < 2 ^ 31) ∧
    (uterm_drm_display_activate kernel_ok world_start video_two disp_idle).1 = 0 ∧
    (uterm_drm_display_activate kernel_ok world_start video_two disp_idle).1 ≠ -ENODEV :=
  ⟨by decide, by decide,
    (activate_free_crtc kernel_ok world_start video_two disp_idle res_ok
      { connector_id := 21, connection := DRM_MODE_CONNECTED, encoders := [30],
        props := [(7, 0)], modes := [info_a] }
      (by decide) (by decide) (by decide) (by decide)
      (Or.inl ⟨{ possible_crtcs := 3 }, by decide, 1, 7, by decide, by decide, by
        rintro ⟨d, hd, hc⟩
        simp [video_two, disp_on5, disp_idle] at hd
        rcases hd with rfl | rfl <;> simp at hc⟩)).1,
    (activate_free_crtc kernel_ok world_start video_two disp_idle res_ok
      { connector_id := 21, connection := DRM_MODE_CONNECTED, encoders := [30],
        props := [(7, 0)], modes := [info_a] }
      (by decide) (by decide) (by decide) (by decide)
      (Or.inl ⟨{ possible_crtcs := 3 }, by decide, 1, 7, by decide, by decide, by
        rintro ⟨d, hd, hc⟩
        simp [video_two, disp_on5, disp_idle] at hd
        rcases hd with rfl | rfl <;> simp at hc⟩)).2.1⟩

/-! ## Reading DPMS -/

theorem props_fetched_calls (ps : List (Nat × Nat)) :
    ∀ w : World, (props_fetched w ps).calls =
      (ps.map (fun p => Call.getProperty p.1)).reverse ++ w.calls := by
  induction ps with
  | nil => intro w; rfl
  | cons p ps ih =>
    intro w
    have hw : props_fetched w (p :: ps) = props_fetched (w.log (Call.getProperty p.1)) ps := rfl
    rw [hw, ih]
    simp [World.log]

theorem dpms_of_raw_known (value : Nat) : dpms_of_raw value ≠ UTERM_DPMS_UNKNOWN := by
  unfold dpms_of_raw
  split
  · decide
  · split
    · decide
    · split <;> decide

theorem get_dpms_loop_absent (k : Kernel) (ps : List (Nat × Nat)) :
    ∀ w : World, no_dpms_fetched k w ps = true →
      get_dpms_loop k w ps = (UTERM_DPMS_UNKNOWN, props_fetched w ps) := by
  induction ps with
  | nil => intro w _; rfl
  | cons p ps ih =>
    intro w hn
    unfold no_dpms_fetched at hn
    have hw : props_fetched w (p :: ps) = props_fetched (drmModeGetProperty k w p.1).2 ps := rfl
    rw [hw]
    unfold get_dpms_loop
    cases hf : (drmModeGetProperty k w p.1).1 with
    | none =>
      rw [hf] at hn
      exact ih _ (by simpa using hn)
    | some prop =>
      rw [hf] at hn
      simp only [Bool.and_eq_true, Bool.not_eq_true', decide_eq_false_iff_not] at hn
      simp only [hn.1, if_false]
      exact ih _ hn.2

theorem get_dpms_loop_first (k : Kernel) (pre : List (Nat × Nat)) (p : Nat × Nat)
    (post : List (Nat × Nat)) (prop : Property) :
    ∀ w : World, no_dpms_fetched k w pre = true →
      (drmModeGetProperty k (props_fetched w pre) p.1).1 = some prop → prop.name = "DPMS" →
      get_dpms_loop k w (pre ++ p :: post) =
        (dpms_of_raw p.2, (props_fetched w pre).log (Call.getProperty p.1)) := by
  induction pre with
  | nil =>
    intro w _ hf hname
    simp only [props_fetched, List.foldl_nil] at hf
    simp only [List.nil_append, get_dpms_loop, hf, hname, if_true, props_fetched,
      List.foldl_nil]
    rfl
  | cons a pre ih =>
    intro w hn hf hname
    unfold no_dpms_fetched at hn
    have hw : props_fetched w (a :: pre) = props_fetched (drmModeGetProperty k w a.1).2 pre :=
      rfl
    rw [hw] at hf ⊢
    simp only [List.cons_append]
    unfold get_dpms_loop
    cases hfa : (drmModeGetProperty k w a.1).1 with
    | none =>
      rw [hfa] at hn
      exact ih _ (by simpa using hn) hf hname
    | some pa =>
      rw [hfa] at hn
      simp only [Bool.and_eq_true, Bool.not_eq_true', decide_eq_false_iff_not] at hn
      simp only [hn.1, if_false]
      exact ih _ hn.2 hf hname

theorem get_dpms_loop_found (k : Kernel) (ps : List (Nat × Nat)) :
    ∀ w : World, no_dpms_fetched k w ps = false →
      (get_dpms_loop k w ps).1 ≠ UTERM_DPMS_UNKNOWN := by
  induction ps with
  | nil => intro w h; simp [no_dpms_fetched] at h
  | cons p ps ih =>
    intro w hn
    unfold no_dpms_fetched at hn
    unfold get_dpms_loop
    cases hf : (drmModeGetProperty k w p.1).1 with
    | none =>
      rw [hf] at hn
      exact ih _ (by simpa using hn)
    | some prop =>
      rw [hf] at hn
      by_cases hname : prop.name = "DPMS"
      · simp only [hname, if_true]
        exact dpms_of_raw_known _
      · simp only [hname, if_false]
        exact ih _ (by simpa [hname] using hn)

/-- Claim C15: `uterm_drm_get_dpms` returns the state mapped from
`prop_values[i]` for the first index `i` whose property fetch succeeds with the
name "DPMS", whatever fetches failed before it, and stops there; it returns
UNKNOWN exactly when no fetched property is named "DPMS"; raw ON, STANDBY and
SUSPEND map to the state of the same name and every other raw value to OFF. -/
theorem get_dpms_first_match (k : Kernel) (w : World) (conn : Connector) :
    (∀ pre p post prop, conn.props = pre ++ p :: post → no_dpms_fetched k w pre = true →
      (drmModeGetProperty k (props_fetched w pre) p.1).1 = some prop → prop.name = "DPMS" →
      (uterm_drm_get_dpms k w conn).1 = dpms_of_raw p.2 ∧
      (uterm_drm_get_dpms k w conn).2.calls =
        Call.getProperty p.1 ::
          ((pre.map (fun q => Call.getProperty q.1)).reverse ++ w.calls)) ∧
    ((uterm_drm_get_dpms k w conn).1 = UTERM_DPMS_UNKNOWN ↔
      no_dpms_fetched k w conn.props = true) ∧
    dpms_of_raw DRM_MODE_DPMS_ON = UTERM_DPMS_ON ∧
    dpms_of_raw DRM_MODE_DPMS_STANDBY = UTERM_DPMS_STANDBY ∧
    dpms_of_raw DRM_MODE_DPMS_SUSPEND = UTERM_DPMS_SUSPEND ∧
    dpms_of_raw DRM_MODE_DPMS_OFF = UTERM_DPMS_OFF ∧
    (∀ value, value ≠ DRM_MODE_DPMS_ON → value ≠ DRM_MODE_DPMS_STANDBY →
      value ≠ DRM_MODE_DPMS_SUSPEND → dpms_of_raw value = UTERM_DPMS_OFF) := by
  refine ⟨?_, ?_, by decide, by decide, by decide, by decide, ?_⟩
  · intro pre p post prop hsplit hn hf hname
    unfold uterm_drm_get_dpms
    rw [hsplit, get_dpms_loop_first k pre p post prop w hn hf hname]
    exact ⟨rfl, by simp [World.log, props_fetched_calls]⟩
  · unfold uterm_drm_get_dpms
    constructor
    · intro h
      cases hn : no_dpms_fetched k w conn.props with
      | true => rfl
      | false => exact absurd h (get_dpms_loop_found k conn.props w hn)
    · intro hn
      rw [get_dpms_loop_absent k conn.props w hn]
  · intro value h1 h2 h3
    simp [dpms_of_raw, h1, h2, h3]

/-- Witness for C15: the fetch of the first property fails, the second one is
named "DPMS" and carries raw SUSPEND. -/
theorem get_dpms_first_match_witness :
    (uterm_drm_get_dpms kernel_props world_start conn_props).1 = UTERM_DPMS_SUSPEND ∧
    (uterm_drm_get_dpms kernel_props world_start conn_props).1 = dpms_of_raw (7, 2).2 ∧
    (uterm_drm_get_dpms kernel_props world_start conn_props).2.calls =
      Call.getProperty (7, 2).1 ::
        (([(6, 1)].map (fun q => Call.getProperty q.1)).reverse ++ world_start.calls) :=
  ⟨by decide,
    (get_dpms_first_match kernel_props world_start conn_props).1 [(6, 1)] (7, 2) []
      { prop_id := 7, name := "DPMS" } (by decide) (by decide) (by decide) (by decide)⟩

/-! ## Snapshot and activation -/

theorem activate_snapshot (k : Kernel) (w : World) (video : Video) (disp : Display)
    (h : (uterm_drm_display_activate k w video disp).1 = 0) :
    ∃ hist id, (uterm_drm_display_activate k w video disp).2.2.saved_crtc = k.getCrtc hist id := by
  unfold uterm_drm_display_activate at h ⊢
  split
  · rename_i hres; simp [hres, EFAULT] at h
  · rename_i res hres
    simp only [hres] at h
    split
    · rename_i hconn; simp [hconn, EFAULT] at h
    · rename_i conn hconn
      simp only
      split
      · rename_i hneg
        simp [hconn, hneg, ENODEV] at h
      · exact ⟨_, _, rfl⟩

theorem run_op_invariant (k : Kernel) (s : World × Display × Bool) (op : DisplayOp)
    (h1 : s.2.1.saved_crtc.isSome = true → s.2.2 = true)
    (h2 : s.2.2 = false → s.2.1.crtc_id = 0) :
    ((run_op k s op).2.1.saved_crtc.isSome = true → (run_op k s op).2.2 = true) ∧
    ((run_op k s op).2.2 = false → (run_op k s op).2.1.crtc_id = 0) := by
  cases op with
  | activate video =>
    unfold run_op
    simp only
    by_cases h0 : (uterm_drm_display_activate k s.1 video s.2.1).1 = 0
    · simp [h0]
    · rw [activate_failure k s.1 video s.2.1 h0]
      simp only [h0, if_false]
      exact ⟨h1, h2⟩
  | deactivate video =>
    unfold run_op uterm_drm_display_deactivate
    cases s.2.1.saved_crtc <;> simp

theorem run_op_snapshot (k : Kernel) (hk : ∀ hist id, (k.getCrtc hist id).isSome = true)
    (s : World × Display × Bool) (op : DisplayOp)
    (h : s.2.2 = true → s.2.1.saved_crtc.isSome = true) :
    (run_op k s op).2.2 = true → (run_op k s op).2.1.saved_crtc.isSome = true := by
  cases op with
  | activate video =>
    unfold run_op
    simp only
    by_cases h0 : (uterm_drm_display_activate k s.1 video s.2.1).1 = 0
    · intro _
      obtain ⟨hist, id, heq⟩ := activate_snapshot k s.1 video s.2.1 h0
      rw [heq]; exact hk hist id
    · rw [activate_failure k s.1 video s.2.1 h0]
      simp only [h0, if_false]
      exact h
  | deactivate video =>
    unfold run_op
    intro hf
    simp at hf

theorem run_ops_invariant (k : Kernel) (ops : List DisplayOp) :
    ∀ s : World × Display × Bool,
      (s.2.1.saved_crtc.isSome = true → s.2.2 = true) → (s.2.2 = false → s.2.1.crtc_id = 0) →
      ((run_ops k s ops).2.1.saved_crtc.isSome = true → (run_ops k s ops).2.2 = true) ∧
      ((run_ops k s ops).2.2 = false → (run_ops k s ops).2.1.crtc_id = 0) := by
  induction ops with
  | nil => intro s h1 h2; exact ⟨h1, h2⟩
  | cons op ops ih =>
    intro s h1 h2
    obtain ⟨g1, g2⟩ := run_op_invariant k s op h1 h2
    exact ih (run_op k s op) g1 g2

theorem run_ops_snapshot (k : Kernel) (hk : ∀ hist id, (k.getCrtc hist id).isSome = true)
    (ops : List DisplayOp) :
    ∀ s : World × Display × Bool, (s.2.2 = true → s.2.1.saved_crtc.isSome = true) →
      (run_ops k s ops).2.2 = true → (run_ops k s ops).2.1.saved_crtc.isSome = true := by
  induction ops with
  | nil => intro s h; exact h
  | cons op ops ih =>
    intro s h
    exact ih (run_op k s op) (run_op_snapshot k hk s op h)

/-- Claim C11 as stated fails: a freshly bound display is activated
successfully while the kernel's CRTC fetch fails; it is then activated (crtc id
7) and holds no snapshot. -/
theorem activated_without_snapshot :
    disp_idle.crtc_id = 0 ∧ disp_idle.saved_crtc = none ∧
    (uterm_drm_display_activate kernel_nocrtc world_start video_two disp_idle).1 = 0 ∧
    (run_ops kernel_nocrtc (world_start, disp_idle, false)
      [DisplayOp.activate video_two]).2.2 = true ∧
    (run_ops kernel_nocrtc (world_start, disp_idle, false)
      [DisplayOp.activate video_two]).2.1.crtc_id = 7 ∧
    (run_ops kernel_nocrtc (world_start, disp_idle, false)
      [DisplayOp.activate video_two]).2.1.saved_crtc = none := by
  decide

/-- Claim C11, amended: starting from a freshly bound display (crtc id 0, no
snapshot), after any sequence of activations and deactivations and for every
kernel answer, the display holds a snapshot only if it is activated (an
activation succeeded and no deactivation followed), and a display that is not
activated has crtc id 0; when every CRTC fetch of the kernel succeeds, the
display holds a snapshot if and only if it is activated. -/
theorem snapshot_only_if_activated (k : Kernel) (w : World) (disp : Display)
    (ops : List DisplayOp) (hcrtc : disp.crtc_id = 0) (hsnap : disp.saved_crtc = none) :
    ((run_ops k (w, disp, false) ops).2.1.saved_crtc.isSome = true →
      (run_ops k (w, disp, false) ops).2.2 = true) ∧
    ((run_ops k (w, disp, false) ops).2.2 = false →
      (run_ops k (w, disp, false) ops).2.1.crtc_id = 0) ∧
    ((∀ hist id, (k.getCrtc hist id).isSome = true) →
      ((run_ops k (w, disp, false) ops).2.1.saved_crtc.isSome = true ↔
        (run_ops k (w, disp, false) ops).2.2 = true)) := by
  obtain ⟨h1, h2⟩ := run_ops_invariant k ops (w, disp, false) (by simp [hsnap])
    (fun _ => hcrtc)
  refine ⟨h1, h2, fun hk => ⟨h1, ?_⟩⟩
  exact run_ops_snapshot k hk ops (w, disp, false) (by simp)

/-- Witness for C11: activation, deactivation and activation again on a kernel
whose CRTC fetch succeeds; the display ends activated with a snapshot. -/
theorem snapshot_only_if_activated_witness :
    disp_idle.crtc_id = 0 ∧ disp_idle.saved_crtc = none ∧
    (run_ops kernel_ok (world_start, disp_idle, false)
      [DisplayOp.activate video_two, DisplayOp.deactivate video_two,
        DisplayOp.activate video_two]).2.2 = true ∧
    ((run_ops kernel_ok (world_start, disp_idle, false)
      [DisplayOp.activate video_two, DisplayOp.deactivate video_two,
        DisplayOp.activate video_two]).2.1.saved_crtc.isSome = true ↔
      (run_ops kernel_ok (world_start, disp_idle, false)
        [DisplayOp.activate video_two, DisplayOp.deactivate video_two,
          DisplayOp.activate video_two]).2.2 = true) :=
  ⟨by decide, by decide, by decide,
    (snapshot_only_if_activated kernel_ok world_start disp_idle
      [DisplayOp.activate video_two, DisplayOp.deactivate video_two,
        DisplayOp.activate video_two] (by decide) (by decide)).2.2
      (fun _ _ => rfl)⟩

/-! ## DPMS refresh during reconciliation -/

/-- Claim C16 fails on the code: an online display with recorded state OFF sits
on a connected connector whose live DPMS state is ON.  Reconciliation with
DPMS refresh writes the raw value OFF, mapped from the recorded state, to the
connector's DPMS property, and the write succeeds; but the recorded state
after the reconciliation is ON, not the recorded state OFF from before. -/
theorem refresh_records_on :
    disp_off.dpms = UTERM_DPMS_OFF ∧ disp_off.online = true ∧
    (uterm_drm_get_dpms kernel_single world_start
      { connector_id := 20, connection := DRM_MODE_CONNECTED, encoders := [30],
        props := [(7, 0)], modes := [info_a] }).1 = UTERM_DPMS_ON ∧
    (uterm_drm_video_hotplug kernel_single world_start video_drift true).1 = 0 ∧
    (uterm_drm_video_hotplug kernel_single world_start video_drift true).2.1.calls =
      [Call.connectorSetProperty 20 7 DRM_MODE_DPMS_OFF, Call.getProperty 7,
        Call.getConnector 20, Call.getProperty 7, Call.getConnector 20, Call.getResources] ∧
    (uterm_drm_video_hotplug kernel_single world_start video_drift true).2.2.displays.map
      Display.dpms = [UTERM_DPMS_ON] ∧
    (uterm_drm_video_hotplug kernel_single world_start video_drift true).2.2.displays.map
      Display.dpms ≠ [disp_off.dpms] := by
  decide

end Uterm
